import Mathlib

/-!
Verification development for the `sims_featureScheduler_runs3.0` survey
configuration scripts (`draft2_updated/draft2_uzy_named.py` and
`euclid_south/euclid_smudge.py`).

The scripts assemble lists of (basis-function, weight) pairs per filter
combination, wrap them into survey objects, and hand the result to an
external simulation driver.  The shallow embedding below mirrors that
list-assembly logic.  Objects owned by the external `rubin_sim` library
(basis-function constructors, detailers, footprints) are represented by
constructors/handles carrying exactly the parameters the scripts pass;
constant pass-through kwargs that no claim mentions (e.g. `slew_approx`,
`read_approx`, the `penalty`/`site` kwargs of the zenith mask) are omitted.
Float weights are represented by rationals: the only arithmetic the
scripts perform on them is exact halving and doubling.
-/

namespace SchedRuns

/-- Handle for a per-filter footprint map (the value of
`footprints.get_footprint(filtername)`); the HEALPix contents are owned by
the external library, so the handle is abstract. -/
abbrev FootprintMap := Nat

/-- The `footprints` object passed into the generator functions: the only
operation the scripts use is `get_footprint(filtername)`. -/
structure Footprints where
  get_footprint : String → FootprintMap

/-- Basis functions, one constructor per `rubin_sim.scheduler.basis_functions`
constructor the scripts call, carrying the parameters the scripts pass. -/
inductive BF where
  | M5Diff (filtername : String) (nside : Nat)
  | FootprintBF (filtername : String) (footprint : Footprints) (nside : Nat)
  | Slewtime (filtername : String) (nside : Nat)
  | StrictFilter (filtername : String)
  | VisitRepeat (gapMin gapMax : ℚ) (nside npairs : Nat)
  | ZenithShadowMask (nside : Nat) (shadowMinutes maxAlt : ℚ)
  | MoonAvoidance (nside : Nat) (moonDistance : ℚ)
  | FilterLoaded (filternames : List String)
  | PlanetMask (nside : Nat)
  | NObsPerYear (filtername : String) (nside : Nat) (fp : FootprintMap)
      (nObs : Nat) (season seasonStartHour seasonEndHour : ℚ)
  | NGoodSeeing (filtername : String) (nside : Nat) (mjdStart : ℚ)
      (fp : FootprintMap) (nObsDesired : Nat)
  | AvoidLongGaps (nside : Nat) (minGap maxGap haLimit : ℚ) (fp : FootprintMap)
  | TimeToScheduled (timeNeeded : ℚ)
  | TimeToTwilight (timeNeeded : ℚ) (altLimit : Option ℚ)
  | NotTwilight
  | NearSunTwilight (nside : Nat) (maxAirmass : ℚ)
  | SolarElongationMask (minElong maxElong : ℚ) (nside : Nat)
  | NightModulo (pattern : Option (List Bool))
  | SunAltHighLimit (altLimit : ℚ)

/-- Detailers, one constructor per detailer the scripts instantiate. -/
inductive Detailer where
  | CameraRot (minRot maxRot : ℚ)
  | Rottep2RotspDesired
  | CloseAlt
  | FlushForSched
  | TakeAsPairs (filtername : String)
  | FilterNexp (filtername : String) (nexp : Nat)
  | TwilightTriple (slewEstimate : ℚ) (nRepeat : Nat)
  | Dither (perNight : Bool) (maxDither : ℚ)
  | EuclidDither

/-- A row of the scheduled-observation array consumed by `ddf_surveys`;
only the `note` field is inspected by this repository, the rest is an
abstract payload. -/
structure Obs where
  note : String
  payload : Nat

instance : Inhabited Obs := ⟨⟨"", 0⟩⟩

/-- Which survey constructor produced the object. -/
inductive SurveyKind where
  | greedy
  | blob
  | scripted
deriving DecidableEq

/-- A survey object, keeping the fields of the `GreedySurvey` / `BlobSurvey`
/ `ScriptedSurvey` constructor calls that the scripts set. -/
structure Survey where
  kind : SurveyKind
  basis_functions : List BF
  weights : List ℚ
  detailers : List Detailer
  survey_name : String := ""
  survey_note : String := ""
  filtername1 : Option String := none
  filtername2 : Option String := none
  exptime : ℚ := 30
  nexp : Nat := 2
  ignore_obs : List String := []
  ideal_pair_time : ℚ := 0
  script : List Obs := []

/-- `np.min` over a list (the scripts only apply it to the nonempty
`camera_rot_limits` list; the unreachable empty case is given a junk value
where Python would raise). -/
def npMin : List ℚ → ℚ
  | [] => 0
  | x :: xs => xs.foldl min x

/-- `np.max` over a list, as `npMin`. -/
def npMax : List ℚ → ℚ
  | [] => 0
  | x :: xs => xs.foldl max x

/-- The basis-function/weight list that one iteration of the loop in
`gen_GreedySurveys` builds for `filtername` (source lines 81-98). -/
def greedy_bfs (nside : Nat) (filtername : String)
    (shadow_minutes max_alt moon_distance : ℚ)
    (m5_weight footprint_weight slewtime_weight stayfilter_weight repeat_weight : ℚ)
    (footprints : Footprints) : List (BF × ℚ) :=
  [(BF.M5Diff filtername nside, m5_weight),
   (BF.FootprintBF filtername footprints nside, footprint_weight),
   (BF.Slewtime filtername nside, slewtime_weight),
   (BF.StrictFilter filtername, stayfilter_weight),
   (BF.VisitRepeat 0 (2 * 60) nside 20, repeat_weight),
   (BF.ZenithShadowMask nside shadow_minutes max_alt, 0),
   (BF.MoonAvoidance nside moon_distance, 0),
   (BF.FilterLoaded [filtername], 0),
   (BF.PlanetMask nside, 0)]

/-- The `GreedySurvey` built by one iteration of the loop in
`gen_GreedySurveys` (the detailer list is built once before the loop, but it
is the same value for every iteration). -/
def greedy_survey (nside nexp : Nat) (exptime : ℚ)
    (camera_rot_limits : List ℚ) (shadow_minutes max_alt moon_distance : ℚ)
    (ignore_obs : List String)
    (m5_weight footprint_weight slewtime_weight stayfilter_weight repeat_weight : ℚ)
    (footprints : Footprints) (filtername : String) : Survey :=
  let bfs := greedy_bfs nside filtername shadow_minutes max_alt moon_distance
    m5_weight footprint_weight slewtime_weight stayfilter_weight repeat_weight
    footprints
  { kind := .greedy
    basis_functions := bfs.map Prod.fst
    weights := bfs.map Prod.snd
    detailers := [Detailer.CameraRot (npMin camera_rot_limits)
                    (npMax camera_rot_limits),
                  Detailer.Rottep2RotspDesired]
    survey_name := "Twilight greedy survey " ++ filtername
    filtername1 := some filtername
    exptime := exptime
    nexp := nexp
    ignore_obs := ignore_obs }

/-- `gen_GreedySurveys` (draft2 version; the euclid version differs only in
the survey-name kwargs): one `GreedySurvey` per element of `filters`. -/
def gen_GreedySurveys (nside : Nat) (nexp : Nat) (exptime : ℚ)
    (filters : List String) (camera_rot_limits : List ℚ)
    (shadow_minutes max_alt moon_distance : ℚ) (ignore_obs : List String)
    (m5_weight footprint_weight slewtime_weight stayfilter_weight repeat_weight : ℚ)
    (footprints : Footprints) : List Survey :=
  filters.map (greedy_survey nside nexp exptime camera_rot_limits
    shadow_minutes max_alt moon_distance ignore_obs m5_weight footprint_weight
    slewtime_weight stayfilter_weight repeat_weight footprints)

/-- The `template_weights` dict built at the top of `generate_blobs`
(source lines 174-176); dict lookup returns `none` where Python raises
`KeyError`. -/
def template_weights (u_template_weight template_weight : ℚ) : String → Option ℚ
  | "u" => some u_template_weight
  | "g" => some template_weight
  | "r" => some template_weight
  | "i" => some template_weight
  | "z" => some template_weight
  | "y" => some template_weight
  | _ => none

/-- Python `str()` of an optional string (an f-string renders `None` as
`"None"`). -/
def pyStrOpt : Option String → String
  | some s => s
  | none => "None"

/-- The M5-difference entries of one blob iteration (source lines 197-202;
identical in `generate_twi_blobs`). -/
def blob_m5_part (nside : Nat) (f1 : String) (f2 : Option String)
    (m5_weight : ℚ) : List (BF × ℚ) :=
  match f2 with
  | some f => [(BF.M5Diff f1 nside, m5_weight / 2), (BF.M5Diff f nside, m5_weight / 2)]
  | none => [(BF.M5Diff f1 nside, m5_weight)]

/-- The footprint entries of one blob iteration (source lines 204-214;
identical in `generate_twi_blobs`). -/
def blob_fp_part (nside : Nat) (f1 : String) (f2 : Option String)
    (footprint_weight : ℚ) (footprints : Footprints) : List (BF × ℚ) :=
  match f2 with
  | some f => [(BF.FootprintBF f1 footprints nside, footprint_weight / 2),
               (BF.FootprintBF f footprints nside, footprint_weight / 2)]
  | none => [(BF.FootprintBF f1 footprints nside, footprint_weight)]

/-- The template (`NObsPerYearBasisFunction`) entries of one `generate_blobs`
iteration (source lines 221-237); the paired branch indexes the
`template_weights` dict. -/
def blob_template_part (nside : Nat) (f1 : String) (f2 : Option String)
    (footprints : Footprints) (n_obs_template : Nat)
    (season season_start_hour season_end_hour : ℚ)
    (template_weight u_template_weight : ℚ) : Option (List (BF × ℚ)) :=
  match f2 with
  | some f => do
      let w1 ← template_weights u_template_weight template_weight f1
      let w2 ← template_weights u_template_weight template_weight f
      pure [(BF.NObsPerYear f1 nside (footprints.get_footprint f1) n_obs_template
               season season_start_hour season_end_hour, w1 / 2),
            (BF.NObsPerYear f nside (footprints.get_footprint f) n_obs_template
               season season_start_hour season_end_hour, w2 / 2)]
  | none => some [(BF.NObsPerYear f1 nside (footprints.get_footprint f1) n_obs_template
                     season season_start_hour season_end_hour, template_weight)]

/-- One good-seeing entry, guarded by `if filtername in list(good_seeing.keys())`
(the `good_seeing` dict is a partial map from filtername to desired count). -/
def seeing_entry (nside : Nat) (mjd_start : ℚ) (footprints : Footprints)
    (good_seeing : String → Option Nat) (good_seeing_weight : ℚ)
    (f : String) : List (BF × ℚ) :=
  match good_seeing f with
  | some n => [(BF.NGoodSeeing f nside mjd_start (footprints.get_footprint f) n,
                good_seeing_weight)]
  | none => []

/-- The good-seeing entries of one `generate_blobs` iteration
(source lines 240-253). -/
def blob_seeing_part (nside : Nat) (mjd_start : ℚ) (footprints : Footprints)
    (good_seeing : String → Option Nat) (good_seeing_weight : ℚ)
    (f1 : String) (f2 : Option String) : List (BF × ℚ) :=
  match f2 with
  | some f => seeing_entry nside mjd_start footprints good_seeing good_seeing_weight f1 ++
              seeing_entry nside mjd_start footprints good_seeing good_seeing_weight f
  | none => seeing_entry nside mjd_start footprints good_seeing good_seeing_weight f1

/-- The trailing zero-weight entries of one `generate_blobs` iteration
(source lines 254-268). -/
def blob_tail_part (nside : Nat) (f1 : String) (f2 : Option String)
    (scheduled_respect shadow_minutes max_alt moon_distance pair_time : ℚ) :
    List (BF × ℚ) :=
  [(BF.TimeToScheduled scheduled_respect, 0),
   (BF.ZenithShadowMask nside shadow_minutes max_alt, 0),
   (BF.MoonAvoidance nside moon_distance, 0),
   (BF.FilterLoaded ([some f1, f2].filterMap id), 0),
   (BF.TimeToTwilight (match f2 with | none => pair_time | some _ => pair_time * 2) none, 0),
   (BF.NotTwilight, 0),
   (BF.PlanetMask nside, 0)]

/-- The full basis-function/weight list of one `generate_blobs` iteration. -/
def blob_pair_bfs (nside : Nat) (f1 : String) (f2 : Option String)
    (pair_time : ℚ) (n_obs_template : Nat)
    (season season_start_hour season_end_hour : ℚ)
    (shadow_minutes max_alt moon_distance : ℚ)
    (m5_weight footprint_weight slewtime_weight stayfilter_weight
     template_weight u_template_weight : ℚ) (footprints : Footprints)
    (scheduled_respect : ℚ) (good_seeing : String → Option Nat)
    (good_seeing_weight mjd_start repeat_weight : ℚ) :
    Option (List (BF × ℚ)) :=
  (blob_template_part nside f1 f2 footprints n_obs_template season
      season_start_hour season_end_hour template_weight u_template_weight).map
    fun templ =>
      blob_m5_part nside f1 f2 m5_weight ++
      blob_fp_part nside f1 f2 footprint_weight footprints ++
      [(BF.Slewtime f1 nside, slewtime_weight),
       (BF.StrictFilter f1, stayfilter_weight),
       (BF.VisitRepeat 0 (3 * 60) nside 20, repeat_weight)] ++
      templ ++
      blob_seeing_part nside mjd_start footprints good_seeing good_seeing_weight f1 f2 ++
      blob_tail_part nside f1 f2 scheduled_respect shadow_minutes max_alt
        moon_distance pair_time

/-- The detailer list of one `generate_blobs` iteration (source lines
188-193, 277-281). -/
def blob_detailers (camera_rot_limits : List ℚ) (f2 : Option String)
    (u_nexp1 : Bool) : List Detailer :=
  [Detailer.CameraRot (npMin camera_rot_limits) (npMax camera_rot_limits),
   Detailer.Rottep2RotspDesired, Detailer.CloseAlt, Detailer.FlushForSched] ++
  (match f2 with
   | some f => [Detailer.TakeAsPairs f]
   | none => []) ++
  (if u_nexp1 then [Detailer.FilterNexp "u" 1] else [])

/-- The `BlobSurvey` built by one `generate_blobs` iteration (draft2 version,
which overwrites `survey_name` with the "Standard pair blobs" form just
before the constructor call, so `survey_note` receives the same string). -/
def blob_pair_survey (nside nexp : Nat) (exptime : ℚ) (pair_time : ℚ)
    (camera_rot_limits : List ℚ) (n_obs_template : Nat)
    (season season_start_hour season_end_hour : ℚ)
    (shadow_minutes max_alt moon_distance : ℚ) (ignore_obs : List String)
    (m5_weight footprint_weight slewtime_weight stayfilter_weight
     template_weight u_template_weight : ℚ) (footprints : Footprints)
    (u_nexp1 : Bool) (scheduled_respect : ℚ)
    (good_seeing : String → Option Nat) (good_seeing_weight mjd_start repeat_weight : ℚ)
    (f1 : String) (f2 : Option String) : Option Survey :=
  (blob_pair_bfs nside f1 f2 pair_time n_obs_template season season_start_hour
      season_end_hour shadow_minutes max_alt moon_distance m5_weight
      footprint_weight slewtime_weight stayfilter_weight template_weight
      u_template_weight footprints scheduled_respect good_seeing
      good_seeing_weight mjd_start repeat_weight).map fun bfs =>
    let survey_name := "Standard pair blobs " ++ f1 ++ "_" ++ pyStrOpt f2
    { kind := .blob
      basis_functions := bfs.map Prod.fst
      weights := bfs.map Prod.snd
      detailers := blob_detailers camera_rot_limits f2 u_nexp1
      survey_name := survey_name
      survey_note := survey_name
      filtername1 := some f1
      filtername2 := f2
      exptime := exptime
      nexp := nexp
      ignore_obs := ignore_obs
      ideal_pair_time := pair_time }

/-- The Python `surveys = []; for x in l: surveys.append(f(x))` loop where the
body may raise: the first failing iteration aborts the whole call. -/
def build_loop (f : α → Option β) : List α → Option (List β)
  | [] => some []
  | x :: xs =>
    match f x, build_loop f xs with
    | some y, some ys => some (y :: ys)
    | _, _ => none

/-- `generate_blobs` (draft2 version; the euclid version differs only in the
survey-name kwargs): one `BlobSurvey` per `zip(filter1s, filter2s)` pair. -/
def generate_blobs (nside nexp : Nat) (exptime : ℚ)
    (filter1s : List String) (filter2s : List (Option String))
    (pair_time : ℚ) (camera_rot_limits : List ℚ) (n_obs_template : Nat)
    (season season_start_hour season_end_hour : ℚ)
    (shadow_minutes max_alt moon_distance : ℚ) (ignore_obs : List String)
    (m5_weight footprint_weight slewtime_weight stayfilter_weight
     template_weight u_template_weight : ℚ) (footprints : Footprints)
    (u_nexp1 : Bool) (scheduled_respect : ℚ)
    (good_seeing : String → Option Nat) (good_seeing_weight mjd_start repeat_weight : ℚ) :
    Option (List Survey) :=
  build_loop
    (fun p => blob_pair_survey nside nexp exptime pair_time camera_rot_limits
      n_obs_template season season_start_hour season_end_hour shadow_minutes
      max_alt moon_distance ignore_obs m5_weight footprint_weight
      slewtime_weight stayfilter_weight template_weight u_template_weight
      footprints u_nexp1 scheduled_respect good_seeing good_seeing_weight
      mjd_start repeat_weight p.1 p.2)
    (filter1s.zip filter2s)

/-- Default `filter1s` of `generate_blobs`. -/
def default_filter1s : List String := ["u", "u", "g", "r", "i", "z", "y"]

/-- Default `filter2s` of `generate_blobs`. -/
def default_filter2s : List (Option String) :=
  [some "g", some "r", some "r", some "i", some "z", some "y", some "y"]

/-- Default `good_seeing` dict of `generate_blobs`: `{'g': 3, 'r': 3, 'i': 3}`. -/
def default_good_seeing : String → Option Nat := fun f =>
  if f = "g" ∨ f = "r" ∨ f = "i" then some 3 else none

/-- The template entries of one `generate_twi_blobs` iteration (source lines
396-412); unlike `generate_blobs` both paired halves use `template_weight`
directly (no dict lookup). -/
def twi_template_part (nside : Nat) (f1 : String) (f2 : Option String)
    (footprints : Footprints) (n_obs_template : Nat)
    (season season_start_hour season_end_hour template_weight : ℚ) :
    List (BF × ℚ) :=
  match f2 with
  | some f => [(BF.NObsPerYear f1 nside (footprints.get_footprint f1) n_obs_template
                  season season_start_hour season_end_hour, template_weight / 2),
               (BF.NObsPerYear f nside (footprints.get_footprint f) n_obs_template
                  season season_start_hour season_end_hour, template_weight / 2)]
  | none => [(BF.NObsPerYear f1 nside (footprints.get_footprint f1) n_obs_template
                season season_start_hour season_end_hour, template_weight)]

/-- The optional `AvoidLongGapsBasisFunction` entry of `generate_twi_blobs`
(source lines 413-416), present when `repeat_night_weight is not None`. -/
def twi_repeat_night_part (nside : Nat) (repeat_night_weight : Option ℚ)
    (wfd_footprint : FootprintMap) : List (BF × ℚ) :=
  match repeat_night_weight with
  | some w => [(BF.AvoidLongGaps nside 0 (10 / 24) (7 / 2) wfd_footprint, w)]
  | none => []

/-- The trailing zero-weight entries of one `generate_twi_blobs` iteration
(source lines 417-434): like the `generate_blobs` tail but with
`alt_limit=12` on `TimeToTwilight`, no `NotTwilight`, and a final
`NightModulo` entry. -/
def twi_tail_part (nside : Nat) (f1 : String) (f2 : Option String)
    (scheduled_respect shadow_minutes max_alt moon_distance pair_time : ℚ)
    (night_pattern : Option (List Bool)) : List (BF × ℚ) :=
  [(BF.TimeToScheduled scheduled_respect, 0),
   (BF.ZenithShadowMask nside shadow_minutes max_alt, 0),
   (BF.MoonAvoidance nside moon_distance, 0),
   (BF.FilterLoaded ([some f1, f2].filterMap id), 0),
   (BF.TimeToTwilight (match f2 with | none => pair_time | some _ => pair_time * 2) (some 12), 0),
   (BF.PlanetMask nside, 0),
   (BF.NightModulo night_pattern, 0)]

/-- The full basis-function/weight list of one `generate_twi_blobs`
iteration. -/
def twi_pair_bfs (nside : Nat) (f1 : String) (f2 : Option String)
    (pair_time : ℚ) (n_obs_template : Nat)
    (season season_start_hour season_end_hour : ℚ)
    (shadow_minutes max_alt moon_distance : ℚ)
    (m5_weight footprint_weight slewtime_weight stayfilter_weight
     template_weight : ℚ) (footprints : Footprints)
    (repeat_night_weight : Option ℚ) (wfd_footprint : FootprintMap)
    (scheduled_respect repeat_weight : ℚ)
    (night_pattern : Option (List Bool)) : List (BF × ℚ) :=
  blob_m5_part nside f1 f2 m5_weight ++
  blob_fp_part nside f1 f2 footprint_weight footprints ++
  [(BF.Slewtime f1 nside, slewtime_weight),
   (BF.StrictFilter f1, stayfilter_weight),
   (BF.VisitRepeat 0 (2 * 60) nside 20, repeat_weight)] ++
  twi_template_part nside f1 f2 footprints n_obs_template season
    season_start_hour season_end_hour template_weight ++
  twi_repeat_night_part nside repeat_night_weight wfd_footprint ++
  twi_tail_part nside f1 f2 scheduled_respect shadow_minutes max_alt
    moon_distance pair_time night_pattern

/-- The detailer list of one `generate_twi_blobs` iteration (source lines
363-368, 445-446). -/
def twi_detailers (camera_rot_limits : List ℚ) (f2 : Option String) :
    List Detailer :=
  [Detailer.CameraRot (npMin camera_rot_limits) (npMax camera_rot_limits),
   Detailer.Rottep2RotspDesired, Detailer.CloseAlt, Detailer.FlushForSched] ++
  (match f2 with
   | some f => [Detailer.TakeAsPairs f]
   | none => [])

/-- The `BlobSurvey` built by one `generate_twi_blobs` iteration (draft2
version: `survey_note` is the `'blob_twi, ...'` form and `survey_name` the
`'Twilight pair blob ...'` form). -/
def twi_pair_survey (nside nexp : Nat) (exptime : ℚ) (pair_time : ℚ)
    (camera_rot_limits : List ℚ) (n_obs_template : Nat)
    (season season_start_hour season_end_hour : ℚ)
    (shadow_minutes max_alt moon_distance : ℚ) (ignore_obs : List String)
    (m5_weight footprint_weight slewtime_weight stayfilter_weight
     template_weight : ℚ) (footprints : Footprints)
    (repeat_night_weight : Option ℚ) (wfd_footprint : FootprintMap)
    (scheduled_respect repeat_weight : ℚ) (night_pattern : Option (List Bool))
    (f1 : String) (f2 : Option String) : Survey :=
  let bfs := twi_pair_bfs nside f1 f2 pair_time n_obs_template season
    season_start_hour season_end_hour shadow_minutes max_alt moon_distance
    m5_weight footprint_weight slewtime_weight stayfilter_weight
    template_weight footprints repeat_night_weight wfd_footprint
    scheduled_respect repeat_weight night_pattern
  { kind := .blob
    basis_functions := bfs.map Prod.fst
    weights := bfs.map Prod.snd
    detailers := twi_detailers camera_rot_limits f2
    survey_name :=
      match f2 with
      | none => "Twilight pair blob " ++ f1
      | some f => "Twilight pair blob " ++ f1 ++ "_" ++ f
    survey_note :=
      match f2 with
      | none => "blob_twi, " ++ f1
      | some f => "blob_twi, " ++ f1 ++ f
    filtername1 := some f1
    filtername2 := f2
    exptime := exptime
    nexp := nexp
    ignore_obs := ignore_obs
    ideal_pair_time := pair_time }

/-- `generate_twi_blobs` (draft2 version; the euclid version differs only in
the survey-name kwargs): one `BlobSurvey` per `zip(filter1s, filter2s)`
pair. -/
def generate_twi_blobs (nside nexp : Nat) (exptime : ℚ)
    (filter1s : List String) (filter2s : List (Option String))
    (pair_time : ℚ) (camera_rot_limits : List ℚ) (n_obs_template : Nat)
    (season season_start_hour season_end_hour : ℚ)
    (shadow_minutes max_alt moon_distance : ℚ) (ignore_obs : List String)
    (m5_weight footprint_weight slewtime_weight stayfilter_weight
     template_weight : ℚ) (footprints : Footprints)
    (repeat_night_weight : Option ℚ) (wfd_footprint : FootprintMap)
    (scheduled_respect repeat_weight : ℚ) (night_pattern : Option (List Bool)) :
    List Survey :=
  (filter1s.zip filter2s).map fun p =>
    twi_pair_survey nside nexp exptime pair_time camera_rot_limits
      n_obs_template season season_start_hour season_end_hour shadow_minutes
      max_alt moon_distance ignore_obs m5_weight footprint_weight
      slewtime_weight stayfilter_weight template_weight footprints
      repeat_night_weight wfd_footprint scheduled_respect repeat_weight
      night_pattern p.1 p.2

/-- Opaque handle for the HEALPix map computed by `ecliptic_target`; the
geometry (healpy/astropy calls) is owned by external libraries and no claim
depends on the map's contents, so the map is an uninterpreted handle. -/
def ecliptic_target (_nside : Nat) (_mask : Option FootprintMap) : FootprintMap :=
  0

/-- The basis-function/weight list of one `generate_twilight_neo` iteration
(source lines 513-534). -/
def neo_bfs (nside : Nat) (f : String) (constant_fp : Footprints)
    (footprint_weight slewtime_weight stayfilter_weight max_airmass : ℚ)
    (night_pattern : Option (List Bool)) (sun_alt_limit : ℚ) : List (BF × ℚ) :=
  [(BF.FootprintBF f constant_fp nside, footprint_weight),
   (BF.Slewtime f nside, slewtime_weight),
   (BF.StrictFilter f, stayfilter_weight),
   (BF.NearSunTwilight nside max_airmass, 0),
   (BF.ZenithShadowMask nside 60 76, 0),
   (BF.MoonAvoidance nside 30, 0),
   (BF.FilterLoaded [f], 0),
   (BF.PlanetMask nside, 0),
   (BF.SolarElongationMask 0 60 nside, 0),
   (BF.NightModulo night_pattern, 0),
   (BF.SunAltHighLimit sun_alt_limit, 0)]

/-- The `BlobSurvey` built by one iteration of the loop in
`generate_twilight_neo` (the ecliptic-target `ConstantFootprint` is built
once before the loop, but it is the same value for every iteration;
`slew_estimate = 4.5`). -/
def neo_survey (nside : Nat) (night_pattern : Option (List Bool))
    (nexp : Nat) (exptime ideal_pair_time max_airmass : ℚ)
    (camera_rot_limits : List ℚ) (footprint_mask : Option FootprintMap)
    (footprint_weight slewtime_weight stayfilter_weight : ℚ)
    (n_repeat : Nat) (sun_alt_limit : ℚ) (f : String) : Survey :=
  let bfs := neo_bfs nside f ⟨fun _ => ecliptic_target nside footprint_mask⟩
    footprint_weight slewtime_weight stayfilter_weight max_airmass
    night_pattern sun_alt_limit
  { kind := .blob
    basis_functions := bfs.map Prod.fst
    weights := bfs.map Prod.snd
    detailers := [Detailer.CameraRot (npMin camera_rot_limits)
                    (npMax camera_rot_limits),
                  Detailer.CloseAlt,
                  Detailer.TwilightTriple (9 / 2) n_repeat]
    survey_name := "Near Sun twilight survey " ++ f
    survey_note := "twilight_neo"
    filtername1 := some f
    filtername2 := none
    exptime := exptime
    nexp := nexp
    ignore_obs := ["DD", "greedy", "blob"]
    ideal_pair_time := ideal_pair_time }

/-- `generate_twilight_neo` (draft2 version; the euclid version differs only
in the survey-name kwarg): one `BlobSurvey` per filter, sharing a
`ConstantFootprint` holding the ecliptic target map for each filter. -/
def generate_twilight_neo (nside : Nat) (night_pattern : Option (List Bool))
    (nexp : Nat) (exptime ideal_pair_time max_airmass : ℚ)
    (camera_rot_limits : List ℚ) (footprint_mask : Option FootprintMap)
    (footprint_weight slewtime_weight stayfilter_weight : ℚ)
    (filters : List String) (n_repeat : Nat) (sun_alt_limit : ℚ) :
    List Survey :=
  filters.map (neo_survey nside night_pattern nexp exptime ideal_pair_time
    max_airmass camera_rot_limits footprint_mask footprint_weight
    slewtime_weight stayfilter_weight n_repeat sun_alt_limit)

/-- The note test of `ddf_surveys`:
`(obs_array['note'] == 'DD:EDFS_b') | (obs_array['note'] == 'DD:EDFS_a')`. -/
def is_euclid_note (s : String) : Bool :=
  (s == "DD:EDFS_b") || (s == "DD:EDFS_a")

/-- The `euclid_obs` index array of `ddf_surveys` (source line 461). -/
def euclid_obs_idx (obs_array : List Obs) : List Nat :=
  (List.range obs_array.length).filter fun i =>
    is_euclid_note ((obs_array.getD i default).note)

/-- The `all_other` index array of `ddf_surveys` (source line 462). -/
def all_other_idx (obs_array : List Obs) : List Nat :=
  (List.range obs_array.length).filter fun i =>
    !is_euclid_note ((obs_array.getD i default).note)

/-- Row selection `obs_array[indices]`. -/
def select_rows (obs_array : List Obs) (idx : List Nat) : List Obs :=
  idx.map fun i => obs_array.getD i default

/-- `ddf_surveys`: split the scheduled-observation array (produced by
`generate_ddf_scheduled_obs`, owned by the sibling `make_ddf_survey` script
and therefore taken as an input here) into two `ScriptedSurvey`s. -/
def ddf_surveys (dets edets : List Detailer) (obs_array : List Obs) :
    List Survey :=
  [{ kind := .scripted
     basis_functions := []
     weights := []
     detailers := dets
     script := select_rows obs_array (all_other_idx obs_array) },
   { kind := .scripted
     basis_functions := []
     weights := []
     detailers := edets
     script := select_rows obs_array (euclid_obs_idx obs_array) }]

/-- `np.round` on a rational: round half to even (numpy's rounding mode). -/
def np_round (q : ℚ) : ℤ :=
  let f := q - ⌊q⌋
  if f < 1 / 2 then ⌊q⌋
  else if 1 / 2 < f then ⌊q⌋ + 1
  else if Even ⌊q⌋ then ⌊q⌋ else ⌊q⌋ + 1

/-- The arguments `run_sched` forwards to the external `sim_runner`. -/
structure SimCall where
  surveys : List (List Survey)
  survey_length : ℚ
  filename : String
  nside : Nat
  illum_limit : ℚ

/-- `run_sched` (source lines 550-564): builds the output filename
`fileroot + '%iyrs.db' % np.round(survey_length/365.25)` and forwards to
`sim_runner`.  `years` is a whole-valued float, so the `%i` conversion is
its exact integer value. -/
def run_sched (surveys : List (List Survey)) (survey_length : ℚ) (nside : Nat)
    (fileroot : String) (illum_limit : ℚ) : SimCall :=
  let years := np_round (survey_length / (1461 / 4))
  { surveys := surveys
    survey_length := survey_length
    filename := fileroot ++ toString years ++ "yrs.db"
    nside := nside
    illum_limit := illum_limit }

/-- `os.path.join` for the two-argument uses in the scripts. -/
def path_join (a b : String) : String :=
  if a = "" then b
  else if b.startsWith "/" then b
  else if a.endsWith "/" then a ++ b
  else a ++ "/" ++ b

/-- The `fileroot` argument `main` passes to `run_sched` (source lines
609-614, 677): `script_base` stands for
`os.path.basename(sys.argv[0]).replace('.py', '')`, an OS-derived string. -/
def main_fileroot (outDir : String) (dbroot : Option String)
    (script_base : String) : String :=
  let fileroot :=
    match dbroot with
    | none => script_base ++ "_"
    | some d => d ++ "_"
  let file_end := "v2.99_"
  path_join outDir (fileroot ++ file_end)

/-- The `pattern_dict` lookup in `main` (source lines 616-623); `none` where
Python raises `KeyError`. -/
def pattern_dict (k : Nat) : Option (List Bool) :=
  if k = 1 then some [true]
  else if k = 2 then some [true, false]
  else if k = 3 then some [true, false, false]
  else if k = 4 then some [true, false, false, false]
  else if k = 5 then some [true, true, true, true, false, false, false, false]
  else if k = 6 then some [true, true, true, false, false, false, false]
  else if k = 7 then some [true, true, false, false, false, false]
  else none

/-- `reverse_neo_night_pattern = [not val for val in neo_night_pattern]`
(source line 624). -/
def reverse_pattern (p : List Bool) : List Bool :=
  p.map fun v => !v

/-- Night-enablement of `NightModuloBasisFunction(pattern=...)`: the basis
function keys on `night % len(pattern)`.  The implementation lives in the
external `rubin_sim` library; this evaluation is modelled from the
constructor's name and the script's usage comment ("turn off twilight blobs
on nights where we are doing NEO hunts"). -/
def night_modulo_enabled (pattern : List Bool) (night : Nat) : Bool :=
  pattern.getD (night % pattern.length) false

/-- The provenance-dictionary assembly in `main` (source lines 591-607):
each subprocess call is represented by its outcome.  The first `try/except`
defaults the git hash to `'Not in git repo'`; the second silently skips the
`rubin_sim` hash entry.  The function is total: neither failure escapes. -/
def main_provenance (exec_command file_executed : String)
    (git_hash rs_hash : Except Unit String) : List (String × String) :=
  let info := [("exec command", exec_command)]
  let info := info ++
    [("git hash", match git_hash with
                  | .ok h => h
                  | .error _ => "Not in git repo")]
  let info := info ++ [("file executed", file_executed)]
  match rs_hash with
  | .ok h => info ++ [("rubin_sim git hash", h)]
  | .error _ => info

/-- Modelled from the spec: claim C4 reads the scripts as having exactly one
explicit error boundary (the git-hash retrieval, degrading to a placeholder);
under that reading a failure of the `rubin_sim` hash retrieval has no handler
and propagates, terminating the script. -/
def spec_main_provenance (exec_command file_executed : String)
    (git_hash rs_hash : Except Unit String) :
    Except Unit (List (String × String)) :=
  match rs_hash with
  | .error e => .error e
  | .ok h =>
    .ok ([("exec command", exec_command),
          ("git hash", match git_hash with
                       | .ok g => g
                       | .error _ => "Not in git repo"),
          ("file executed", file_executed),
          ("rubin_sim git hash", h)])

/-- `main` after the provenance block: everything downstream (footprint
construction, the generator calls, `run_sched`) is enclosed in no
`try/except`, so any failure there propagates and terminates the script. -/
def main_after_provenance (exec_command file_executed : String)
    (git_hash rs_hash : Except Unit String)
    (rest : Except Unit (List (List Survey))) :
    Except Unit (List (String × String) × List (List Survey)) :=
  match rest with
  | .error e => .error e
  | .ok surveys =>
    .ok (main_provenance exec_command file_executed git_hash rs_hash, surveys)

/-- The pixel selection of `EuclidOverlapFootprint.add_euclid_overlap`
(source line 50 of `euclid_smudge.py`):
`np.where((np.array(in_poly) == True & (self.pix_labels == "")))`.
Python's `&` binds tighter than `==`, so the expression evaluates as
`in_poly == (pix_labels == "")`. -/
def euclid_overlap_indx (in_poly : List Bool) (pix_labels : List String) :
    List Nat :=
  (List.range pix_labels.length).filter fun i =>
    (in_poly.getD i false) == ((pix_labels.getD i "") == "")

/-- The selection that claim C10 and the code's own comment in `return_maps`
("Once a HEALpix is set and labled, subsequent add_ methods will not
override that pixel") describe: inside the contour and still unlabeled. -/
def intended_overlap_indx (in_poly : List Bool) (pix_labels : List String) :
    List Nat :=
  (List.range pix_labels.length).filter fun i =>
    (in_poly.getD i false) && ((pix_labels.getD i "") == "")

/-- Numpy fancy-index assignment `arr[indx] = v`. -/
def assign_at (l : List α) (d : α) (idxs : List Nat) (v : α) : List α :=
  (List.range l.length).map fun i => if idxs.contains i then v else l.getD i d

/-- The `pix_labels` update of `add_euclid_overlap` (source line 51). -/
def add_euclid_overlap_labels (in_poly : List Bool) (pix_labels : List String) :
    List String :=
  assign_at pix_labels "" (euclid_overlap_indx in_poly pix_labels)
    "euclid_overlap"

/-- The per-filter `healmaps` update of `add_euclid_overlap` (source lines
52-53), for one filter whose ratio is `ratio`. -/
def add_euclid_overlap_healmap (in_poly : List Bool) (pix_labels : List String)
    (healmap : List ℚ) (ratio : ℚ) : List ℚ :=
  assign_at healmap 0 (euclid_overlap_indx in_poly pix_labels) ratio

/-- The basis-function/weight pairing of a survey: the scripts build `bfs`
as a list of tuples and pass `basis_functions`/`weights` as its two
projections, so zipping recovers the pairing. -/
def pairsOf (s : Survey) : List (BF × ℚ) :=
  s.basis_functions.zip s.weights

/-- Recognize `M5DiffBasisFunction` entries. -/
def BF.isM5Diff : BF → Bool
  | .M5Diff _ _ => true
  | _ => false

/-- Recognize `FootprintBasisFunction` entries. -/
def BF.isFootprint : BF → Bool
  | .FootprintBF _ _ _ => true
  | _ => false

/-- Recognize the mask-type / constraint basis functions listed in claim C2. -/
def BF.isMask : BF → Bool
  | .ZenithShadowMask _ _ _ => true
  | .MoonAvoidance _ _ => true
  | .FilterLoaded _ => true
  | .PlanetMask _ => true
  | .SolarElongationMask _ _ _ => true
  | .NearSunTwilight _ _ => true
  | .NightModulo _ => true
  | .TimeToTwilight _ _ => true
  | .NotTwilight => true
  | .TimeToScheduled _ => true
  | .SunAltHighLimit _ => true
  | _ => false

lemma map_fst_zip_map_snd (l : List (α × β)) :
    (l.map Prod.fst).zip (l.map Prod.snd) = l := by
  induction l with
  | nil => rfl
  | cons x l ih => simpa using ih

lemma build_loop_length (f : α → Option β) :
    ∀ (l : List α) (ys : List β), build_loop f l = some ys → ys.length = l.length := by
  intro l
  induction l with
  | nil => intro ys h; simp [build_loop] at h; simp [← h]
  | cons x xs ih =>
    intro ys h
    simp only [build_loop] at h
    cases hx : f x with
    | none => rw [hx] at h; simp at h
    | some y =>
      rw [hx] at h
      cases hr : build_loop f xs with
      | none => rw [hr] at h; simp at h
      | some ys' =>
        rw [hr] at h
        simp at h
        simp [← h, ih ys' hr]

lemma build_loop_mem (f : α → Option β) :
    ∀ (l : List α) (ys : List β), build_loop f l = some ys →
      ∀ y ∈ ys, ∃ x ∈ l, f x = some y := by
  intro l
  induction l with
  | nil => intro ys h; simp [build_loop] at h; intro y hy; rw [h] at hy; cases hy
  | cons x xs ih =>
    intro ys h
    simp only [build_loop] at h
    cases hx : f x with
    | none => rw [hx] at h; simp at h
    | some y =>
      rw [hx] at h
      cases hr : build_loop f xs with
      | none => rw [hr] at h; simp at h
      | some ys' =>
        rw [hr] at h
        simp at h
        intro z hz
        rw [← h] at hz
        rcases List.mem_cons.1 hz with hz | hz
        · exact ⟨x, List.mem_cons_self x xs, by rw [hx, hz]⟩
        · obtain ⟨x', hx', hfx'⟩ := ih ys' hr z hz
          exact ⟨x', List.mem_cons_of_mem x hx', hfx'⟩

/-- C8: `ddf_surveys` partitions the rows of the scheduled-observation array
into exactly two scripted surveys: rows whose `note` is `DD:EDFS_a` or
`DD:EDFS_b` form the Euclid survey's script and all remaining rows form the
other survey's script; the two index sets are disjoint and together cover
every row. -/
theorem ddf_surveys_partition (dets edets : List Detailer) (obs_array : List Obs) :
    ∃ s1 s2, ddf_surveys dets edets obs_array = [s1, s2] ∧
      s1.script = select_rows obs_array (all_other_idx obs_array) ∧
      s2.script = select_rows obs_array (euclid_obs_idx obs_array) ∧
      s1.kind = .scripted ∧ s2.kind = .scripted ∧
      s1.detailers = dets ∧ s2.detailers = edets ∧
      (∀ i, i < obs_array.length →
        ((i ∈ euclid_obs_idx obs_array) ↔
          ((obs_array.getD i default).note = "DD:EDFS_a" ∨
           (obs_array.getD i default).note = "DD:EDFS_b")) ∧
        ((i ∈ all_other_idx obs_array) ↔
          ¬((obs_array.getD i default).note = "DD:EDFS_a" ∨
            (obs_array.getD i default).note = "DD:EDFS_b"))) ∧
      (∀ i, ¬(i ∈ euclid_obs_idx obs_array ∧ i ∈ all_other_idx obs_array)) ∧
      (∀ i, i < obs_array.length →
        i ∈ euclid_obs_idx obs_array ∨ i ∈ all_other_idx obs_array) := by
  refine ⟨_, _, rfl, rfl, rfl, rfl, rfl, rfl, rfl, ?_, ?_, ?_⟩
  · intro i hi
    constructor
    · simp only [euclid_obs_idx, List.mem_filter, List.mem_range, is_euclid_note,
        Bool.or_eq_true, beq_iff_eq, hi, true_and]
      tauto
    · simp only [all_other_idx, List.mem_filter, List.mem_range, is_euclid_note,
        Bool.not_eq_true', Bool.or_eq_false_iff, beq_eq_false_iff_ne, ne_eq,
        hi, true_and]
      tauto
  · intro i h
    obtain ⟨h1, h2⟩ := h
    simp only [euclid_obs_idx, all_other_idx, List.mem_filter, List.mem_range] at h1 h2
    rw [h1.2] at h2
    exact absurd h2.2 (by simp)
  · intro i hi
    by_cases h : is_euclid_note ((obs_array.getD i default).note) = true
    · refine Or.inl ?_
      simp only [euclid_obs_idx, List.mem_filter, List.mem_range]
      exact ⟨hi, h⟩
    · refine Or.inr ?_
      simp only [all_other_idx, List.mem_filter, List.mem_range]
      exact ⟨hi, by simp [Bool.not_eq_true] at h ⊢; simp [h]⟩

/-- C5: if `git rev-parse HEAD` fails, `main` stores the placeholder
`'Not in git repo'` under `'git hash'` and execution continues (the rest of
`main` runs on the assembled dictionary); on success the command's output is
stored instead. -/
theorem git_hash_fallback (c f s : String) (rs : Except Unit String)
    (rest : List (List Survey)) :
    ((main_provenance c f (Except.error ()) rs).lookup "git hash" =
      some "Not in git repo") ∧
    ((main_provenance c f (Except.ok s) rs).lookup "git hash" = some s) ∧
    (main_after_provenance c f (Except.error ()) rs (Except.ok rest) =
      Except.ok (main_provenance c f (Except.error ()) rs, rest)) := by
  refine ⟨?_, ?_, rfl⟩ <;> cases rs <;> rfl

/-- C6: `run_sched` hands `sim_runner` the filename
`fileroot ++ toString (np.round (survey_length / 365.25)) ++ "yrs.db"`, and
the fileroot `main` passes ends with the version tag `'v2.99_'`, so the
results-file name encodes the survey length in whole years and a version
tag. -/
theorem results_filename (surveys : List (List Survey)) (survey_length : ℚ)
    (nside : Nat) (fileroot : String) (illum : ℚ)
    (outDir script_base : String) (dbroot : Option String) :
    ((run_sched surveys survey_length nside fileroot illum).filename =
      fileroot ++ toString (np_round (survey_length / (1461 / 4))) ++ "yrs.db") ∧
    (∃ pre, main_fileroot outDir dbroot script_base = pre ++ "v2.99_") ∧
    (∃ pre, (run_sched surveys survey_length nside
        (main_fileroot outDir dbroot script_base) illum).filename =
      pre ++ "v2.99_" ++ toString (np_round (survey_length / (1461 / 4))) ++
        "yrs.db") := by
  have h2 : ∃ pre, main_fileroot outDir dbroot script_base = pre ++ "v2.99_" := by
    simp only [main_fileroot, path_join]
    split_ifs
    · exact ⟨_, rfl⟩
    · exact ⟨_, rfl⟩
    · exact ⟨_, (String.append_assoc _ _ _).symm⟩
    · exact ⟨_, (String.append_assoc _ _ _).symm⟩
  obtain ⟨pre, hp⟩ := h2
  refine ⟨rfl, ⟨pre, hp⟩, ⟨pre, ?_⟩⟩
  show main_fileroot outDir dbroot script_base ++
      toString (np_round (survey_length / (1461 / 4))) ++ "yrs.db" = _
  rw [hp]

/-- C4 counterexample: at a concrete input where the `rubin_sim` hash
retrieval fails, the script continues — the second `try/except` (source
lines 602-607) catches the failure and stores nothing — while the claim's
single-error-boundary reading would have the failure propagate and
terminate the script. -/
theorem single_error_boundary_refuted :
    main_provenance "cmd" "file" (Except.error ()) (Except.error ()) =
      [("exec command", "cmd"), ("git hash", "Not in git repo"),
       ("file executed", "file")] ∧
    spec_main_provenance "cmd" "file" (Except.error ()) (Except.error ()) =
      Except.error () ∧
    main_after_provenance "cmd" "file" (Except.ok "h") (Except.error ())
      (Except.ok []) ≠ Except.error () := by
  refine ⟨rfl, rfl, ?_⟩
  simp [main_after_provenance]

/-- C4 amended: each script has exactly two explicit error boundaries, both
version-control hash retrievals for provenance: the git-hash retrieval
degrades to the placeholder `'Not in git repo'`, the `rubin_sim`-hash
retrieval is skipped silently (no key is stored); every failure downstream
of the provenance block propagates uncaught and terminates the script. -/
theorem error_boundaries_amended (c f h : String) (g r : Except Unit String)
    (e : Unit) (rest : List (List Survey)) :
    ((main_provenance c f (Except.error ()) r).lookup "git hash" =
      some "Not in git repo") ∧
    ((main_provenance c f (Except.ok h) r).lookup "git hash" = some h) ∧
    ((main_provenance c f g (Except.error ())).lookup "rubin_sim git hash" =
      none) ∧
    ((main_provenance c f g (Except.ok h)).lookup "rubin_sim git hash" =
      some h) ∧
    (main_after_provenance c f g r (Except.error e) = Except.error e) ∧
    (main_after_provenance c f g r (Except.ok rest) =
      Except.ok (main_provenance c f g r, rest)) := by
  refine ⟨?_, ?_, ?_, ?_, rfl, rfl⟩
  · cases r <;> rfl
  · cases r <;> rfl
  · cases g <;> rfl
  · cases g <;> rfl

/-- C10: evaluation of `add_euclid_overlap` at a single already-labeled
pixel (`'lowdust'`) lying outside the Euclid contour.  The operator
precedence in `np.where((np.array(in_poly) == True & (self.pix_labels == "")))`
makes the test `in_poly == (pix_labels == "")`, which is true here (both
sides are `False`), so the pixel is selected: the existing label is
overwritten with `'euclid_overlap'` and the healmap value with the Euclid
ratio, while the intended selection (inside the contour and still
unlabeled, per the comment in `return_maps`) is empty. -/
theorem add_euclid_overlap_overwrites_labeled_pixel :
    euclid_overlap_indx [false] ["lowdust"] = [0] ∧
    intended_overlap_indx [false] ["lowdust"] = [] ∧
    add_euclid_overlap_labels [false] ["lowdust"] = ["euclid_overlap"] ∧
    add_euclid_overlap_healmap [false] ["lowdust"] [1] (9 / 10) = [9 / 10] :=
  ⟨rfl, rfl, rfl, rfl⟩

lemma pattern_dict_ne_nil {k : Nat} {p : List Bool}
    (h : pattern_dict k = some p) : p ≠ [] := by
  unfold pattern_dict at h
  split_ifs at h <;> (try cases h) <;> simp_all

lemma reverse_pattern_getD (p : List Bool) (i : Nat) (hi : i < p.length) :
    (reverse_pattern p).getD i false = !(p.getD i false) := by
  unfold reverse_pattern
  rw [List.getD_eq_getElem _ _ (by simpa using hi), List.getD_eq_getElem _ _ hi]
  simp

lemma pairsOf_twi (nside nexp : Nat) (exptime pair_time : ℚ)
    (crl : List ℚ) (n_obs_template : Nat) (season ssh seh sm ma md : ℚ)
    (io : List String) (m5w fw sw stw tw : ℚ) (fps : Footprints)
    (rnw : Option ℚ) (wfd : FootprintMap) (sr rw : ℚ)
    (np : Option (List Bool)) (f1 : String) (f2 : Option String) :
    pairsOf (twi_pair_survey nside nexp exptime pair_time crl n_obs_template
      season ssh seh sm ma md io m5w fw sw stw tw fps rnw wfd sr rw np f1 f2) =
    twi_pair_bfs nside f1 f2 pair_time n_obs_template season ssh seh sm ma md
      m5w fw sw stw tw fps rnw wfd sr rw np :=
  map_fst_zip_map_snd _

lemma pairsOf_greedy (nside nexp : Nat) (exptime : ℚ) (crl : List ℚ)
    (sm ma md : ℚ) (io : List String) (m5w fw sw stw rw : ℚ)
    (fps : Footprints) (f : String) :
    pairsOf (greedy_survey nside nexp exptime crl sm ma md io m5w fw sw stw
      rw fps f) =
    greedy_bfs nside f sm ma md m5w fw sw stw rw fps :=
  map_fst_zip_map_snd _

lemma pairsOf_neo (nside : Nat) (np : Option (List Bool)) (nexp : Nat)
    (exptime ipt maxam : ℚ) (crl : List ℚ) (fmask : Option FootprintMap)
    (fw sw stw : ℚ) (nrep : Nat) (sal : ℚ) (f : String) :
    pairsOf (neo_survey nside np nexp exptime ipt maxam crl fmask fw sw stw
      nrep sal f) =
    neo_bfs nside f ⟨fun _ => ecliptic_target nside fmask⟩ fw sw stw maxam
      np sal :=
  map_fst_zip_map_snd _

/-- C9: the night pattern `main` passes to `generate_twi_blobs` is the
element-wise negation of the pattern passed to `generate_twilight_neo`
(both derived from the `pattern_dict` entry selected by
`neo_night_pattern`); every generated twilight-pair-blob survey carries a
`NightModulo` basis function with the negated pattern and every
twilight-NEO survey one with the original pattern, so on every night index
exactly one of the two is enabled. -/
theorem neo_twi_night_patterns (k : Nat) (p : List Bool)
    (h : pattern_dict k = some p)
    (nside nexp : Nat) (exptime : ℚ) (filter1s : List String)
    (filter2s : List (Option String)) (pair_time : ℚ) (crl : List ℚ)
    (n_obs_template : Nat) (season ssh seh sm ma md : ℚ)
    (ignore_obs : List String) (m5w fw sw stw tw : ℚ) (fps : Footprints)
    (rnw : Option ℚ) (wfd : FootprintMap) (sr rw : ℚ)
    (nexp2 : Nat) (exptime2 ipt maxam : ℚ) (crl2 : List ℚ)
    (fmask : Option FootprintMap) (fw2 sw2 stw2 : ℚ)
    (neo_filters : List String) (n_repeat : Nat) (sal : ℚ) (night : Nat) :
    (reverse_pattern p = p.map fun v => !v) ∧
    (∀ s ∈ generate_twi_blobs nside nexp exptime filter1s filter2s pair_time
        crl n_obs_template season ssh seh sm ma md ignore_obs m5w fw sw stw
        tw fps rnw wfd sr rw (some (reverse_pattern p)),
      (BF.NightModulo (some (reverse_pattern p)), (0 : ℚ)) ∈ pairsOf s) ∧
    (∀ s ∈ generate_twilight_neo nside (some p) nexp2 exptime2 ipt maxam crl2
        fmask fw2 sw2 stw2 neo_filters n_repeat sal,
      (BF.NightModulo (some p), (0 : ℚ)) ∈ pairsOf s) ∧
    (night_modulo_enabled (reverse_pattern p) night =
      !(night_modulo_enabled p night)) := by
  refine ⟨rfl, ?_, ?_, ?_⟩
  · intro s hs
    obtain ⟨pr, _, rfl⟩ := List.mem_map.1 hs
    rw [pairsOf_twi]
    simp [twi_pair_bfs, twi_tail_part, List.mem_append]
  · intro s hs
    obtain ⟨f, _, rfl⟩ := List.mem_map.1 hs
    rw [pairsOf_neo]
    simp [neo_bfs]
  · have hne : p ≠ [] := pattern_dict_ne_nil h
    have hpos : 0 < p.length := List.length_pos.mpr hne
    have hlen : (reverse_pattern p).length = p.length := by
      simp [reverse_pattern]
    unfold night_modulo_enabled
    rw [hlen]
    exact reverse_pattern_getD p (night % p.length) (Nat.mod_lt _ hpos)

/-- The argument tuple of `gen_GreedySurveys`. -/
structure GreedyArgs where
  nside : Nat
  nexp : Nat
  exptime : ℚ
  filters : List String
  camera_rot_limits : List ℚ
  shadow_minutes : ℚ
  max_alt : ℚ
  moon_distance : ℚ
  ignore_obs : List String
  m5_weight : ℚ
  footprint_weight : ℚ
  slewtime_weight : ℚ
  stayfilter_weight : ℚ
  repeat_weight : ℚ
  footprints : Footprints

/-- `gen_GreedySurveys` on its argument tuple. -/
def runGreedy (a : GreedyArgs) : List Survey :=
  gen_GreedySurveys a.nside a.nexp a.exptime a.filters a.camera_rot_limits
    a.shadow_minutes a.max_alt a.moon_distance a.ignore_obs a.m5_weight
    a.footprint_weight a.slewtime_weight a.stayfilter_weight a.repeat_weight
    a.footprints

/-- The argument tuple of `generate_blobs`. -/
structure BlobArgs where
  nside : Nat
  nexp : Nat
  exptime : ℚ
  filter1s : List String
  filter2s : List (Option String)
  pair_time : ℚ
  camera_rot_limits : List ℚ
  n_obs_template : Nat
  season : ℚ
  season_start_hour : ℚ
  season_end_hour : ℚ
  shadow_minutes : ℚ
  max_alt : ℚ
  moon_distance : ℚ
  ignore_obs : List String
  m5_weight : ℚ
  footprint_weight : ℚ
  slewtime_weight : ℚ
  stayfilter_weight : ℚ
  template_weight : ℚ
  u_template_weight : ℚ
  footprints : Footprints
  u_nexp1 : Bool
  scheduled_respect : ℚ
  good_seeing : String → Option Nat
  good_seeing_weight : ℚ
  mjd_start : ℚ
  repeat_weight : ℚ

/-- `generate_blobs` on its argument tuple. -/
def runBlobs (a : BlobArgs) : Option (List Survey) :=
  generate_blobs a.nside a.nexp a.exptime a.filter1s a.filter2s a.pair_time
    a.camera_rot_limits a.n_obs_template a.season a.season_start_hour
    a.season_end_hour a.shadow_minutes a.max_alt a.moon_distance a.ignore_obs
    a.m5_weight a.footprint_weight a.slewtime_weight a.stayfilter_weight
    a.template_weight a.u_template_weight a.footprints a.u_nexp1
    a.scheduled_respect a.good_seeing a.good_seeing_weight a.mjd_start
    a.repeat_weight

/-- The argument tuple of `generate_twi_blobs`. -/
structure TwiBlobArgs where
  nside : Nat
  nexp : Nat
  exptime : ℚ
  filter1s : List String
  filter2s : List (Option String)
  pair_time : ℚ
  camera_rot_limits : List ℚ
  n_obs_template : Nat
  season : ℚ
  season_start_hour : ℚ
  season_end_hour : ℚ
  shadow_minutes : ℚ
  max_alt : ℚ
  moon_distance : ℚ
  ignore_obs : List String
  m5_weight : ℚ
  footprint_weight : ℚ
  slewtime_weight : ℚ
  stayfilter_weight : ℚ
  template_weight : ℚ
  footprints : Footprints
  repeat_night_weight : Option ℚ
  wfd_footprint : FootprintMap
  scheduled_respect : ℚ
  repeat_weight : ℚ
  night_pattern : Option (List Bool)

/-- `generate_twi_blobs` on its argument tuple. -/
def runTwiBlobs (a : TwiBlobArgs) : List Survey :=
  generate_twi_blobs a.nside a.nexp a.exptime a.filter1s a.filter2s
    a.pair_time a.camera_rot_limits a.n_obs_template a.season
    a.season_start_hour a.season_end_hour a.shadow_minutes a.max_alt
    a.moon_distance a.ignore_obs a.m5_weight a.footprint_weight
    a.slewtime_weight a.stayfilter_weight a.template_weight a.footprints
    a.repeat_night_weight a.wfd_footprint a.scheduled_respect a.repeat_weight
    a.night_pattern

/-- The argument tuple of `generate_twilight_neo`. -/
structure NeoArgs where
  nside : Nat
  night_pattern : Option (List Bool)
  nexp : Nat
  exptime : ℚ
  ideal_pair_time : ℚ
  max_airmass : ℚ
  camera_rot_limits : List ℚ
  footprint_mask : Option FootprintMap
  footprint_weight : ℚ
  slewtime_weight : ℚ
  stayfilter_weight : ℚ
  filters : List String
  n_repeat : Nat
  sun_alt_limit : ℚ

/-- `generate_twilight_neo` on its argument tuple. -/
def runNeo (a : NeoArgs) : List Survey :=
  generate_twilight_neo a.nside a.night_pattern a.nexp a.exptime
    a.ideal_pair_time a.max_airmass a.camera_rot_limits a.footprint_mask
    a.footprint_weight a.slewtime_weight a.stayfilter_weight a.filters
    a.n_repeat a.sun_alt_limit

/-- C7: the four generator functions are deterministic — two calls with
equal argument values produce identical survey configurations (the same
basis functions with the same parameters, the same weights, the same
detailers, in the same order).  The embedded generators are pure functions
of their arguments (the scripts draw on no clock, randomness or ambient
state during survey construction; the `seed` is a fixed constant kwarg). -/
theorem generators_deterministic (a a' : GreedyArgs) (b b' : BlobArgs)
    (c c' : TwiBlobArgs) (d d' : NeoArgs)
    (ha : a = a') (hb : b = b') (hc : c = c') (hd : d = d') :
    runGreedy a = runGreedy a' ∧ runBlobs b = runBlobs b' ∧
    runTwiBlobs c = runTwiBlobs c' ∧ runNeo d = runNeo d' := by
  subst ha; subst hb; subst hc; subst hd
  exact ⟨rfl, rfl, rfl, rfl⟩

/-- A concrete `Footprints` value for witness instantiations. -/
def wFootprints : Footprints := ⟨fun _ => 0⟩

/-- Concrete `gen_GreedySurveys` arguments (the script's defaults). -/
def wGreedyArgs : GreedyArgs :=
  { nside := 32, nexp := 2, exptime := 30, filters := ["r", "i", "z", "y"]
    camera_rot_limits := [-80, 80], shadow_minutes := 60, max_alt := 76
    moon_distance := 30, ignore_obs := ["DD", "twilight_neo"]
    m5_weight := 3, footprint_weight := 3 / 4, slewtime_weight := 3
    stayfilter_weight := 3, repeat_weight := -1, footprints := wFootprints }

/-- Concrete `generate_blobs` arguments (the script's defaults). -/
def wBlobArgs : BlobArgs :=
  { nside := 32, nexp := 2, exptime := 30, filter1s := default_filter1s
    filter2s := default_filter2s, pair_time := 33
    camera_rot_limits := [-80, 80], n_obs_template := 3, season := 300
    season_start_hour := -4, season_end_hour := 2, shadow_minutes := 60
    max_alt := 76, moon_distance := 30, ignore_obs := ["DD", "twilight_neo"]
    m5_weight := 6, footprint_weight := 3 / 2, slewtime_weight := 3
    stayfilter_weight := 3, template_weight := 12, u_template_weight := 24
    footprints := wFootprints, u_nexp1 := true, scheduled_respect := 45
    good_seeing := default_good_seeing, good_seeing_weight := 3
    mjd_start := 1, repeat_weight := -20 }

/-- Concrete `generate_twi_blobs` arguments (the script's defaults). -/
def wTwiBlobArgs : TwiBlobArgs :=
  { nside := 32, nexp := 2, exptime := 30, filter1s := ["r", "i", "z", "y"]
    filter2s := [some "i", some "z", some "y", some "y"], pair_time := 15
    camera_rot_limits := [-80, 80], n_obs_template := 3, season := 300
    season_start_hour := -4, season_end_hour := 2, shadow_minutes := 60
    max_alt := 76, moon_distance := 30, ignore_obs := ["DD", "twilight_neo"]
    m5_weight := 6, footprint_weight := 3 / 2, slewtime_weight := 3
    stayfilter_weight := 3, template_weight := 12, footprints := wFootprints
    repeat_night_weight := none, wfd_footprint := 0, scheduled_respect := 15
    repeat_weight := -1, night_pattern := some [false, true, true, true] }

/-- Concrete `generate_twilight_neo` arguments (the script's defaults). -/
def wNeoArgs : NeoArgs :=
  { nside := 32, night_pattern := some [true, false, false, false], nexp := 1
    exptime := 15, ideal_pair_time := 5, max_airmass := 2
    camera_rot_limits := [-80, 80], footprint_mask := none
    footprint_weight := 1 / 10, slewtime_weight := 3, stayfilter_weight := 3
    filters := ["r", "i", "z"], n_repeat := 3, sun_alt_limit := -74 / 5 }

/-- Witness for C7 at the scripts' default argument values. -/
theorem generators_deterministic_witness :
    runGreedy wGreedyArgs = runGreedy wGreedyArgs ∧
    runBlobs wBlobArgs = runBlobs wBlobArgs ∧
    runTwiBlobs wTwiBlobArgs = runTwiBlobs wTwiBlobArgs ∧
    runNeo wNeoArgs = runNeo wNeoArgs :=
  generators_deterministic wGreedyArgs wGreedyArgs wBlobArgs wBlobArgs
    wTwiBlobArgs wTwiBlobArgs wNeoArgs wNeoArgs rfl rfl rfl rfl

lemma not_mask_weight (q : BF × ℚ) (hf : q.1.isMask = false) :
    q.1.isMask = true → q.2 = 0 := by
  intro hm
  rw [hf] at hm
  cases hm

lemma filter_m5_m5_part (nside : Nat) (f1 : String) (f2 : Option String) (w : ℚ) :
    (blob_m5_part nside f1 f2 w).filter (fun q => q.1.isM5Diff) =
    blob_m5_part nside f1 f2 w := by
  cases f2 <;> rfl

lemma filter_fp_m5_part (nside : Nat) (f1 : String) (f2 : Option String) (w : ℚ) :
    (blob_m5_part nside f1 f2 w).filter (fun q => q.1.isFootprint) = [] := by
  cases f2 <;> rfl

lemma m5_part_not_mask (nside : Nat) (f1 : String) (f2 : Option String) (w : ℚ) :
    ∀ q ∈ blob_m5_part nside f1 f2 w, q.1.isMask = false := by
  cases f2 <;> simp [blob_m5_part, List.forall_mem_cons, BF.isMask]

lemma filter_m5_fp_part (nside : Nat) (f1 : String) (f2 : Option String)
    (w : ℚ) (fps : Footprints) :
    (blob_fp_part nside f1 f2 w fps).filter (fun q => q.1.isM5Diff) = [] := by
  cases f2 <;> rfl

lemma filter_fp_fp_part (nside : Nat) (f1 : String) (f2 : Option String)
    (w : ℚ) (fps : Footprints) :
    (blob_fp_part nside f1 f2 w fps).filter (fun q => q.1.isFootprint) =
    blob_fp_part nside f1 f2 w fps := by
  cases f2 <;> rfl

lemma fp_part_not_mask (nside : Nat) (f1 : String) (f2 : Option String)
    (w : ℚ) (fps : Footprints) :
    ∀ q ∈ blob_fp_part nside f1 f2 w fps, q.1.isMask = false := by
  cases f2 <;> simp [blob_fp_part, List.forall_mem_cons, BF.isMask]

lemma filter_m5_blob_mid (nside : Nat) (f1 : String) (g sw stw rw : ℚ) :
    (([(BF.Slewtime f1 nside, sw), (BF.StrictFilter f1, stw),
       (BF.VisitRepeat 0 g nside 20, rw)]) : List (BF × ℚ)).filter
      (fun q => q.1.isM5Diff) = [] :=
  rfl

lemma filter_fp_blob_mid (nside : Nat) (f1 : String) (g sw stw rw : ℚ) :
    (([(BF.Slewtime f1 nside, sw), (BF.StrictFilter f1, stw),
       (BF.VisitRepeat 0 g nside 20, rw)]) : List (BF × ℚ)).filter
      (fun q => q.1.isFootprint) = [] :=
  rfl

lemma blob_mid_not_mask (nside : Nat) (f1 : String) (g sw stw rw : ℚ) :
    ∀ q ∈ (([(BF.Slewtime f1 nside, sw), (BF.StrictFilter f1, stw),
       (BF.VisitRepeat 0 g nside 20, rw)]) : List (BF × ℚ)),
      q.1.isMask = false := by
  simp [List.forall_mem_cons, BF.isMask]

lemma blob_template_part_props (nside : Nat) (f1 : String) (f2 : Option String)
    (fps : Footprints) (nobs : Nat) (season ssh seh tw utw : ℚ)
    (t : List (BF × ℚ))
    (h : blob_template_part nside f1 f2 fps nobs season ssh seh tw utw = some t) :
    t.filter (fun q => q.1.isM5Diff) = [] ∧
    t.filter (fun q => q.1.isFootprint) = [] ∧
    ∀ q ∈ t, q.1.isMask = false := by
  cases f2 with
  | none =>
    simp only [blob_template_part, Option.some.injEq] at h
    subst h
    exact ⟨rfl, rfl, by simp [List.forall_mem_cons, BF.isMask]⟩
  | some f =>
    simp only [blob_template_part] at h
    cases h1 : template_weights utw tw f1 with
    | none => rw [h1] at h; simp at h
    | some w1 =>
      rw [h1] at h
      cases h2 : template_weights utw tw f with
      | none => rw [h2] at h; simp at h
      | some w2 =>
        rw [h2] at h
        simp at h
        subst h
        exact ⟨rfl, rfl, by simp [List.forall_mem_cons, BF.isMask]⟩

lemma seeing_entry_props (nside : Nat) (ms : ℚ) (fps : Footprints)
    (gs : String → Option Nat) (gsw : ℚ) (f : String) :
    (seeing_entry nside ms fps gs gsw f).filter (fun q => q.1.isM5Diff) = [] ∧
    (seeing_entry nside ms fps gs gsw f).filter (fun q => q.1.isFootprint) = [] ∧
    ∀ q ∈ seeing_entry nside ms fps gs gsw f, q.1.isMask = false := by
  unfold seeing_entry
  cases gs f <;>
    exact ⟨rfl, rfl, by simp [List.forall_mem_cons, BF.isMask]⟩

lemma blob_seeing_part_props (nside : Nat) (ms : ℚ) (fps : Footprints)
    (gs : String → Option Nat) (gsw : ℚ) (f1 : String) (f2 : Option String) :
    (blob_seeing_part nside ms fps gs gsw f1 f2).filter
      (fun q => q.1.isM5Diff) = [] ∧
    (blob_seeing_part nside ms fps gs gsw f1 f2).filter
      (fun q => q.1.isFootprint) = [] ∧
    ∀ q ∈ blob_seeing_part nside ms fps gs gsw f1 f2, q.1.isMask = false := by
  cases f2 with
  | none => exact seeing_entry_props nside ms fps gs gsw f1
  | some f =>
    have hA := seeing_entry_props nside ms fps gs gsw f1
    have hB := seeing_entry_props nside ms fps gs gsw f
    refine ⟨?_, ?_, ?_⟩
    · show (seeing_entry nside ms fps gs gsw f1 ++
        seeing_entry nside ms fps gs gsw f).filter (fun q => q.1.isM5Diff) = []
      rw [List.filter_append, hA.1, hB.1]
      rfl
    · show (seeing_entry nside ms fps gs gsw f1 ++
        seeing_entry nside ms fps gs gsw f).filter (fun q => q.1.isFootprint) = []
      rw [List.filter_append, hA.2.1, hB.2.1]
      rfl
    · intro q hq
      rcases List.mem_append.1 hq with hq | hq
      exacts [hA.2.2 q hq, hB.2.2 q hq]

lemma blob_tail_part_props (nside : Nat) (f1 : String) (f2 : Option String)
    (sr sm ma md pt : ℚ) :
    (blob_tail_part nside f1 f2 sr sm ma md pt).filter
      (fun q => q.1.isM5Diff) = [] ∧
    (blob_tail_part nside f1 f2 sr sm ma md pt).filter
      (fun q => q.1.isFootprint) = [] ∧
    ∀ q ∈ blob_tail_part nside f1 f2 sr sm ma md pt, q.2 = 0 := by
  exact ⟨rfl, rfl, by simp [blob_tail_part, List.forall_mem_cons]⟩

lemma blob_pair_bfs_props (nside : Nat) (f1 : String) (f2 : Option String)
    (pt : ℚ) (nobs : Nat) (season ssh seh sm ma md : ℚ)
    (m5w fw sw stw tw utw : ℚ) (fps : Footprints) (sr : ℚ)
    (gs : String → Option Nat) (gsw ms rw : ℚ) (bfs : List (BF × ℚ))
    (h : blob_pair_bfs nside f1 f2 pt nobs season ssh seh sm ma md m5w fw sw
      stw tw utw fps sr gs gsw ms rw = some bfs) :
    bfs.filter (fun q => q.1.isM5Diff) = blob_m5_part nside f1 f2 m5w ∧
    bfs.filter (fun q => q.1.isFootprint) = blob_fp_part nside f1 f2 fw fps ∧
    ∀ q ∈ bfs, q.1.isMask = true → q.2 = 0 := by
  unfold blob_pair_bfs at h
  cases ht : blob_template_part nside f1 f2 fps nobs season ssh seh tw utw with
  | none => rw [ht] at h; simp at h
  | some templ =>
    rw [ht] at h
    simp only [Option.map_some', Option.some.injEq] at h
    subst h
    obtain ⟨htm5, htfp, htmask⟩ :=
      blob_template_part_props nside f1 f2 fps nobs season ssh seh tw utw templ ht
    obtain ⟨hsm5, hsfp, hsmask⟩ := blob_seeing_part_props nside ms fps gs gsw f1 f2
    obtain ⟨hlm5, hlfp, hlzero⟩ := blob_tail_part_props nside f1 f2 sr sm ma md pt
    refine ⟨?_, ?_, ?_⟩
    · simp only [List.filter_append, filter_m5_m5_part, filter_m5_fp_part,
        filter_m5_blob_mid, htm5, hsm5, hlm5, List.append_nil, List.nil_append]
    · simp only [List.filter_append, filter_fp_m5_part, filter_fp_fp_part,
        filter_fp_blob_mid, htfp, hsfp, hlfp, List.append_nil, List.nil_append]
    · intro q hq
      simp only [List.mem_append] at hq
      rcases hq with ((((hq | hq) | hq) | hq) | hq) | hq
      · exact not_mask_weight q (m5_part_not_mask nside f1 f2 m5w q hq)
      · exact not_mask_weight q (fp_part_not_mask nside f1 f2 fw fps q hq)
      · exact not_mask_weight q (blob_mid_not_mask nside f1 (3 * 60) sw stw rw q hq)
      · exact not_mask_weight q (htmask q hq)
      · exact not_mask_weight q (hsmask q hq)
      · exact fun _ => hlzero q hq

lemma blob_pair_survey_shape (nside nexp : Nat) (exptime pt : ℚ)
    (crl : List ℚ) (nobs : Nat) (season ssh seh sm ma md : ℚ)
    (io : List String) (m5w fw sw stw tw utw : ℚ) (fps : Footprints)
    (u1 : Bool) (sr : ℚ) (gs : String → Option Nat) (gsw ms rw : ℚ)
    (f1 : String) (f2 : Option String) (s : Survey)
    (h : blob_pair_survey nside nexp exptime pt crl nobs season ssh seh sm ma
      md io m5w fw sw stw tw utw fps u1 sr gs gsw ms rw f1 f2 = some s) :
    ∃ bfs, blob_pair_bfs nside f1 f2 pt nobs season ssh seh sm ma md m5w fw
        sw stw tw utw fps sr gs gsw ms rw = some bfs ∧
      s.basis_functions = bfs.map Prod.fst ∧ s.weights = bfs.map Prod.snd ∧
      pairsOf s = bfs := by
  unfold blob_pair_survey at h
  cases hb : blob_pair_bfs nside f1 f2 pt nobs season ssh seh sm ma md m5w fw
      sw stw tw utw fps sr gs gsw ms rw with
  | none => rw [hb] at h; simp at h
  | some bfs =>
    rw [hb] at h
    simp only [Option.map_some', Option.some.injEq] at h
    subst h
    exact ⟨bfs, rfl, rfl, rfl, map_fst_zip_map_snd bfs⟩

lemma twi_template_part_props (nside : Nat) (f1 : String) (f2 : Option String)
    (fps : Footprints) (nobs : Nat) (season ssh seh tw : ℚ) :
    (twi_template_part nside f1 f2 fps nobs season ssh seh tw).filter
      (fun q => q.1.isM5Diff) = [] ∧
    (twi_template_part nside f1 f2 fps nobs season ssh seh tw).filter
      (fun q => q.1.isFootprint) = [] ∧
    ∀ q ∈ twi_template_part nside f1 f2 fps nobs season ssh seh tw,
      q.1.isMask = false := by
  cases f2 <;>
    exact ⟨rfl, rfl, by simp [twi_template_part, List.forall_mem_cons, BF.isMask]⟩

lemma twi_repeat_night_part_props (nside : Nat) (rnw : Option ℚ)
    (wfd : FootprintMap) :
    (twi_repeat_night_part nside rnw wfd).filter
      (fun q => q.1.isM5Diff) = [] ∧
    (twi_repeat_night_part nside rnw wfd).filter
      (fun q => q.1.isFootprint) = [] ∧
    ∀ q ∈ twi_repeat_night_part nside rnw wfd, q.1.isMask = false := by
  cases rnw <;>
    exact ⟨rfl, rfl, by simp [twi_repeat_night_part, List.forall_mem_cons, BF.isMask]⟩

lemma twi_tail_part_props (nside : Nat) (f1 : String) (f2 : Option String)
    (sr sm ma md pt : ℚ) (np : Option (List Bool)) :
    (twi_tail_part nside f1 f2 sr sm ma md pt np).filter
      (fun q => q.1.isM5Diff) = [] ∧
    (twi_tail_part nside f1 f2 sr sm ma md pt np).filter
      (fun q => q.1.isFootprint) = [] ∧
    ∀ q ∈ twi_tail_part nside f1 f2 sr sm ma md pt np, q.2 = 0 := by
  exact ⟨rfl, rfl, by simp [twi_tail_part, List.forall_mem_cons]⟩

lemma twi_pair_bfs_props (nside : Nat) (f1 : String) (f2 : Option String)
    (pt : ℚ) (nobs : Nat) (season ssh seh sm ma md : ℚ)
    (m5w fw sw stw tw : ℚ) (fps : Footprints) (rnw : Option ℚ)
    (wfd : FootprintMap) (sr rw : ℚ) (np : Option (List Bool)) :
    (twi_pair_bfs nside f1 f2 pt nobs season ssh seh sm ma md m5w fw sw stw
        tw fps rnw wfd sr rw np).filter (fun q => q.1.isM5Diff) =
      blob_m5_part nside f1 f2 m5w ∧
    (twi_pair_bfs nside f1 f2 pt nobs season ssh seh sm ma md m5w fw sw stw
        tw fps rnw wfd sr rw np).filter (fun q => q.1.isFootprint) =
      blob_fp_part nside f1 f2 fw fps ∧
    ∀ q ∈ twi_pair_bfs nside f1 f2 pt nobs season ssh seh sm ma md m5w fw sw
        stw tw fps rnw wfd sr rw np, q.1.isMask = true → q.2 = 0 := by
  obtain ⟨htm5, htfp, htmask⟩ :=
    twi_template_part_props nside f1 f2 fps nobs season ssh seh tw
  obtain ⟨hrm5, hrfp, hrmask⟩ := twi_repeat_night_part_props nside rnw wfd
  obtain ⟨hlm5, hlfp, hlzero⟩ :=
    twi_tail_part_props nside f1 f2 sr sm ma md pt np
  refine ⟨?_, ?_, ?_⟩
  · simp only [twi_pair_bfs, List.filter_append, filter_m5_m5_part,
      filter_m5_fp_part, filter_m5_blob_mid, htm5, hrm5, hlm5,
      List.append_nil, List.nil_append]
  · simp only [twi_pair_bfs, List.filter_append, filter_fp_m5_part,
      filter_fp_fp_part, filter_fp_blob_mid, htfp, hrfp, hlfp,
      List.append_nil, List.nil_append]
  · intro q hq
    simp only [twi_pair_bfs, List.mem_append] at hq
    rcases hq with ((((hq | hq) | hq) | hq) | hq) | hq
    · exact not_mask_weight q (m5_part_not_mask nside f1 f2 m5w q hq)
    · exact not_mask_weight q (fp_part_not_mask nside f1 f2 fw fps q hq)
    · exact not_mask_weight q (blob_mid_not_mask nside f1 (2 * 60) sw stw rw q hq)
    · exact not_mask_weight q (htmask q hq)
    · exact not_mask_weight q (hrmask q hq)
    · exact fun _ => hlzero q hq

lemma greedy_bfs_mask_zero (nside : Nat) (f : String) (sm ma md : ℚ)
    (m5w fw sw stw rw : ℚ) (fps : Footprints) :
    ∀ q ∈ greedy_bfs nside f sm ma md m5w fw sw stw rw fps,
      q.1.isMask = true → q.2 = 0 := by
  simp [greedy_bfs, List.forall_mem_cons, BF.isMask]

lemma neo_bfs_mask_zero (nside : Nat) (f : String) (cfp : Footprints)
    (fw sw stw maxam : ℚ) (np : Option (List Bool)) (sal : ℚ) :
    ∀ q ∈ neo_bfs nside f cfp fw sw stw maxam np sal,
      q.1.isMask = true → q.2 = 0 := by
  simp [neo_bfs, List.forall_mem_cons, BF.isMask]

/-- C2: in every survey built by `gen_GreedySurveys`, `generate_blobs`,
`generate_twi_blobs` and `generate_twilight_neo`, every mask-type or
constraint basis function (zenith shadow, moon avoidance, filter loaded,
planet mask, solar elongation, near-sun twilight, night modulo, time to
twilight, not twilight, time to scheduled, sun-alt high limit) is attached
with weight exactly 0. -/
theorem masks_zero_weight :
    (∀ (nside nexp : Nat) (exptime : ℚ) (filters : List String)
        (crl : List ℚ) (sm ma md : ℚ) (io : List String)
        (m5w fw sw stw rw : ℚ) (fps : Footprints),
      ∀ s ∈ gen_GreedySurveys nside nexp exptime filters crl sm ma md io m5w
          fw sw stw rw fps,
        ∀ q ∈ pairsOf s, q.1.isMask = true → q.2 = 0) ∧
    (∀ (nside nexp : Nat) (exptime : ℚ) (filter1s : List String)
        (filter2s : List (Option String)) (pair_time : ℚ) (crl : List ℚ)
        (nobs : Nat) (season ssh seh sm ma md : ℚ) (io : List String)
        (m5w fw sw stw tw utw : ℚ) (fps : Footprints) (u1 : Bool) (sr : ℚ)
        (gs : String → Option Nat) (gsw ms rw : ℚ),
      ∀ s ∈ (generate_blobs nside nexp exptime filter1s filter2s pair_time
          crl nobs season ssh seh sm ma md io m5w fw sw stw tw utw fps u1 sr
          gs gsw ms rw).getD [],
        ∀ q ∈ pairsOf s, q.1.isMask = true → q.2 = 0) ∧
    (∀ (nside nexp : Nat) (exptime : ℚ) (filter1s : List String)
        (filter2s : List (Option String)) (pair_time : ℚ) (crl : List ℚ)
        (nobs : Nat) (season ssh seh sm ma md : ℚ) (io : List String)
        (m5w fw sw stw tw : ℚ) (fps : Footprints) (rnw : Option ℚ)
        (wfd : FootprintMap) (sr rw : ℚ) (np : Option (List Bool)),
      ∀ s ∈ generate_twi_blobs nside nexp exptime filter1s filter2s pair_time
          crl nobs season ssh seh sm ma md io m5w fw sw stw tw fps rnw wfd sr
          rw np,
        ∀ q ∈ pairsOf s, q.1.isMask = true → q.2 = 0) ∧
    (∀ (nside : Nat) (np : Option (List Bool)) (nexp : Nat)
        (exptime ipt maxam : ℚ) (crl : List ℚ) (fmask : Option FootprintMap)
        (fw sw stw : ℚ) (filters : List String) (nrep : Nat) (sal : ℚ),
      ∀ s ∈ generate_twilight_neo nside np nexp exptime ipt maxam crl fmask
          fw sw stw filters nrep sal,
        ∀ q ∈ pairsOf s, q.1.isMask = true → q.2 = 0) := by
  refine ⟨?_, ?_, ?_, ?_⟩
  · intro nside nexp exptime filters crl sm ma md io m5w fw sw stw rw fps s hs
    obtain ⟨f, _, rfl⟩ := List.mem_map.1 hs
    rw [pairsOf_greedy]
    exact greedy_bfs_mask_zero nside f sm ma md m5w fw sw stw rw fps
  · intro nside nexp exptime filter1s filter2s pair_time crl nobs season ssh
      seh sm ma md io m5w fw sw stw tw utw fps u1 sr gs gsw ms rw s hs
    cases hgb : generate_blobs nside nexp exptime filter1s filter2s pair_time
        crl nobs season ssh seh sm ma md io m5w fw sw stw tw utw fps u1 sr gs
        gsw ms rw with
    | none => rw [hgb] at hs; cases hs
    | some ys =>
      rw [hgb] at hs
      unfold generate_blobs at hgb
      obtain ⟨pr, _, hps⟩ := build_loop_mem _ _ _ hgb s hs
      obtain ⟨bfs, hb, _, _, hp⟩ := blob_pair_survey_shape nside nexp exptime
        pair_time crl nobs season ssh seh sm ma md io m5w fw sw stw tw utw
        fps u1 sr gs gsw ms rw pr.1 pr.2 s hps
      rw [hp]
      exact (blob_pair_bfs_props nside pr.1 pr.2 pair_time nobs season ssh seh
        sm ma md m5w fw sw stw tw utw fps sr gs gsw ms rw bfs hb).2.2
  · intro nside nexp exptime filter1s filter2s pair_time crl nobs season ssh
      seh sm ma md io m5w fw sw stw tw fps rnw wfd sr rw np s hs
    obtain ⟨pr, _, rfl⟩ := List.mem_map.1 hs
    rw [pairsOf_twi]
    exact (twi_pair_bfs_props nside pr.1 pr.2 pair_time nobs season ssh seh sm
      ma md m5w fw sw stw tw fps rnw wfd sr rw np).2.2
  · intro nside np nexp exptime ipt maxam crl fmask fw sw stw filters nrep sal
      s hs
    obtain ⟨f, _, rfl⟩ := List.mem_map.1 hs
    rw [pairsOf_neo]
    exact neo_bfs_mask_zero nside f _ fw sw stw maxam np sal

/-- Witness for C2: in the first default greedy survey for filter `'r'`, the
zenith-shadow mask entry sits at position 5 of the basis-function/weight
pairing, is a mask, and carries weight 0. -/
theorem masks_zero_weight_witness :
    BF.isMask ((pairsOf ((gen_GreedySurveys 32 2 30 ["r"] [-80, 80] 60 76 30
        ["DD", "twilight_neo"] 3 (3 / 4) 3 3 (-1) wFootprints).getD 0
        { kind := .greedy, basis_functions := [], weights := [],
          detailers := [] })).getD 5 (BF.NotTwilight, 1)).1 = true ∧
    ((pairsOf ((gen_GreedySurveys 32 2 30 ["r"] [-80, 80] 60 76 30
        ["DD", "twilight_neo"] 3 (3 / 4) 3 3 (-1) wFootprints).getD 0
        { kind := .greedy, basis_functions := [], weights := [],
          detailers := [] })).getD 5 (BF.NotTwilight, 1)).2 = 0 := by
  constructor
  · rfl
  · have hmem : (gen_GreedySurveys 32 2 30 ["r"] [-80, 80] 60 76 30
        ["DD", "twilight_neo"] 3 (3 / 4) 3 3 (-1) wFootprints).getD 0
        { kind := .greedy, basis_functions := [], weights := [],
          detailers := [] } ∈
        gen_GreedySurveys 32 2 30 ["r"] [-80, 80] 60 76 30
          ["DD", "twilight_neo"] 3 (3 / 4) 3 3 (-1) wFootprints :=
      List.mem_cons_self _ _
    have hq : (pairsOf ((gen_GreedySurveys 32 2 30 ["r"] [-80, 80] 60 76 30
        ["DD", "twilight_neo"] 3 (3 / 4) 3 3 (-1) wFootprints).getD 0
        { kind := .greedy, basis_functions := [], weights := [],
          detailers := [] })).getD 5 (BF.NotTwilight, 1) ∈
        pairsOf ((gen_GreedySurveys 32 2 30 ["r"] [-80, 80] 60 76 30
          ["DD", "twilight_neo"] 3 (3 / 4) 3 3 (-1) wFootprints).getD 0
          { kind := .greedy, basis_functions := [], weights := [],
            detailers := [] }) := by
      show (BF.ZenithShadowMask 32 60 76, (0 : ℚ)) ∈
        pairsOf (greedy_survey 32 2 30 [-80, 80] 60 76 30
          ["DD", "twilight_neo"] 3 (3 / 4) 3 3 (-1) wFootprints "r")
      rw [pairsOf_greedy]
      simp [greedy_bfs]
    exact masks_zero_weight.1 32 2 30 ["r"] [-80, 80] 60 76 30
      ["DD", "twilight_neo"] 3 (3 / 4) 3 3 (-1) wFootprints _ hmem _ hq rfl

/-- C1: for every `(filtername, filtername2)` pair iterated from
`filter1s`/`filter2s` in `generate_blobs` and `generate_twi_blobs` (the
iteration is the zip, as stated by the two definitional conjuncts): if
`filtername2` is not `None`, the survey's basis-function/weight list
contains exactly two `M5DiffBasisFunction` entries (one per filter) each at
`m5_weight/2` and exactly two `FootprintBasisFunction` entries each at
`footprint_weight/2`; if `filtername2` is `None`, exactly one of each, at
`m5_weight` and `footprint_weight`. -/
theorem paired_blob_m5_footprint
    (nside nexp : Nat) (exptime : ℚ) (filter1s : List String)
    (filter2s : List (Option String)) (pair_time : ℚ) (crl : List ℚ)
    (nobs : Nat) (season ssh seh sm ma md : ℚ) (io : List String)
    (m5w fw sw stw tw utw : ℚ) (fps : Footprints) (u1 : Bool) (sr : ℚ)
    (gs : String → Option Nat) (gsw ms rw : ℚ)
    (tnside tnexp : Nat) (texptime : ℚ) (tf1s : List String)
    (tf2s : List (Option String)) (tpt : ℚ) (tcrl : List ℚ) (tnobs : Nat)
    (tseason tssh tseh tsm tma tmd : ℚ) (tio : List String)
    (tm5w tfw tsw tstw ttw : ℚ) (tfps : Footprints) (trnw : Option ℚ)
    (twfd : FootprintMap) (tsr trw : ℚ) (tnp : Option (List Bool)) :
    (generate_blobs nside nexp exptime filter1s filter2s pair_time crl nobs
        season ssh seh sm ma md io m5w fw sw stw tw utw fps u1 sr gs gsw ms
        rw =
      build_loop (fun pr => blob_pair_survey nside nexp exptime pair_time crl
        nobs season ssh seh sm ma md io m5w fw sw stw tw utw fps u1 sr gs gsw
        ms rw pr.1 pr.2) (filter1s.zip filter2s)) ∧
    (∀ f1 f2, (f1, f2) ∈ filter1s.zip filter2s →
      ∀ s, blob_pair_survey nside nexp exptime pair_time crl nobs season ssh
          seh sm ma md io m5w fw sw stw tw utw fps u1 sr gs gsw ms rw f1 f2 =
          some s →
        ((pairsOf s).filter (fun q => q.1.isM5Diff) =
          match f2 with
          | some f => [(BF.M5Diff f1 nside, m5w / 2),
                       (BF.M5Diff f nside, m5w / 2)]
          | none => [(BF.M5Diff f1 nside, m5w)]) ∧
        ((pairsOf s).filter (fun q => q.1.isFootprint) =
          match f2 with
          | some f => [(BF.FootprintBF f1 fps nside, fw / 2),
                       (BF.FootprintBF f fps nside, fw / 2)]
          | none => [(BF.FootprintBF f1 fps nside, fw)])) ∧
    (generate_twi_blobs tnside tnexp texptime tf1s tf2s tpt tcrl tnobs
        tseason tssh tseh tsm tma tmd tio tm5w tfw tsw tstw ttw tfps trnw
        twfd tsr trw tnp =
      (tf1s.zip tf2s).map fun pr => twi_pair_survey tnside tnexp texptime tpt
        tcrl tnobs tseason tssh tseh tsm tma tmd tio tm5w tfw tsw tstw ttw
        tfps trnw twfd tsr trw tnp pr.1 pr.2) ∧
    (∀ f1 f2, (f1, f2) ∈ tf1s.zip tf2s →
      ((pairsOf (twi_pair_survey tnside tnexp texptime tpt tcrl tnobs tseason
          tssh tseh tsm tma tmd tio tm5w tfw tsw tstw ttw tfps trnw twfd tsr
          trw tnp f1 f2)).filter (fun q => q.1.isM5Diff) =
        match f2 with
        | some f => [(BF.M5Diff f1 tnside, tm5w / 2),
                     (BF.M5Diff f tnside, tm5w / 2)]
        | none => [(BF.M5Diff f1 tnside, tm5w)]) ∧
      ((pairsOf (twi_pair_survey tnside tnexp texptime tpt tcrl tnobs tseason
          tssh tseh tsm tma tmd tio tm5w tfw tsw tstw ttw tfps trnw twfd tsr
          trw tnp f1 f2)).filter (fun q => q.1.isFootprint) =
        match f2 with
        | some f => [(BF.FootprintBF f1 tfps tnside, tfw / 2),
                     (BF.FootprintBF f tfps tnside, tfw / 2)]
        | none => [(BF.FootprintBF f1 tfps tnside, tfw)])) := by
  refine ⟨rfl, ?_, rfl, ?_⟩
  · intro f1 f2 _ s hs
    obtain ⟨bfs, hb, _, _, hp⟩ := blob_pair_survey_shape nside nexp exptime
      pair_time crl nobs season ssh seh sm ma md io m5w fw sw stw tw utw fps
      u1 sr gs gsw ms rw f1 f2 s hs
    obtain ⟨h1, h2, _⟩ := blob_pair_bfs_props nside f1 f2 pair_time nobs
      season ssh seh sm ma md m5w fw sw stw tw utw fps sr gs gsw ms rw bfs hb
    rw [hp, h1, h2]
    exact ⟨by cases f2 <;> rfl, by cases f2 <;> rfl⟩
  · intro f1 f2 _
    obtain ⟨h1, h2, _⟩ := twi_pair_bfs_props tnside f1 f2 tpt tnobs tseason
      tssh tseh tsm tma tmd tm5w tfw tsw tstw ttw tfps trnw twfd tsr trw tnp
    rw [pairsOf_twi, h1, h2]
    exact ⟨by cases f2 <;> rfl, by cases f2 <;> rfl⟩

/-- Witness for C1 at the pair `('g', 'r')` with the scripts' default
weights (`m5_weight = 6`, `footprint_weight = 1.5` in `generate_blobs`):
the paired survey carries two M5-difference entries at weight 3 and two
footprint entries at weight 0.75. -/
theorem paired_blob_m5_footprint_witness :
    (("g", some "r") ∈
      (["g"] : List String).zip ([some "r"] : List (Option String))) ∧
    ((pairsOf ((blob_pair_survey 32 2 30 33 [-80, 80] 3 300 (-4) 2 60 76 30
        ["DD", "twilight_neo"] 6 (3 / 2) 3 3 12 24 wFootprints true 45
        default_good_seeing 3 1 (-20) "g" (some "r")).getD
        { kind := .blob, basis_functions := [], weights := [],
          detailers := [] })).filter (fun q => q.1.isM5Diff) =
      [(BF.M5Diff "g" 32, 6 / 2), (BF.M5Diff "r" 32, 6 / 2)]) ∧
    ((pairsOf ((blob_pair_survey 32 2 30 33 [-80, 80] 3 300 (-4) 2 60 76 30
        ["DD", "twilight_neo"] 6 (3 / 2) 3 3 12 24 wFootprints true 45
        default_good_seeing 3 1 (-20) "g" (some "r")).getD
        { kind := .blob, basis_functions := [], weights := [],
          detailers := [] })).filter (fun q => q.1.isFootprint) =
      [(BF.FootprintBF "g" wFootprints 32, 3 / 2 / 2),
       (BF.FootprintBF "r" wFootprints 32, 3 / 2 / 2)]) := by
  have h := (paired_blob_m5_footprint 32 2 30 ["g"] [some "r"] 33 [-80, 80] 3
    300 (-4) 2 60 76 30 ["DD", "twilight_neo"] 6 (3 / 2) 3 3 12 24
    wFootprints true 45 default_good_seeing 3 1 (-20)
    32 2 30 ["r"] [some "i"] 15 [-80, 80] 3 300 (-4) 2 60 76 30
    ["DD", "twilight_neo"] 6 (3 / 2) 3 3 12 wFootprints none 0 15 (-1)
    (some [true])).2.1 "g" (some "r") (by decide) _ rfl
  exact ⟨by decide, h.1, h.2⟩

/-- C3: `gen_GreedySurveys` returns exactly one `GreedySurvey` per element
of `filters`, each carrying exactly 9 basis-function/weight pairs;
`generate_blobs` returns exactly one `BlobSurvey` per `zip(filter1s,
filter2s)` pair — 7 with the default filter lists — and in every survey the
weights list has the same length as, and is the position-wise second
projection of, the tuple list whose first projection is the
basis-function list. -/
theorem survey_counts :
    (∀ (nside nexp : Nat) (exptime : ℚ) (filters : List String)
        (crl : List ℚ) (sm ma md : ℚ) (io : List String)
        (m5w fw sw stw rw : ℚ) (fps : Footprints),
      (gen_GreedySurveys nside nexp exptime filters crl sm ma md io m5w fw sw
        stw rw fps).length = filters.length ∧
      ∀ s ∈ gen_GreedySurveys nside nexp exptime filters crl sm ma md io m5w
          fw sw stw rw fps,
        s.basis_functions.length = 9 ∧ s.weights.length = 9 ∧
        s.weights.length = s.basis_functions.length ∧
        ∃ L : List (BF × ℚ), s.basis_functions = L.map Prod.fst ∧
          s.weights = L.map Prod.snd) ∧
    (∀ (nside nexp : Nat) (exptime : ℚ) (filter1s : List String)
        (filter2s : List (Option String)) (pair_time : ℚ) (crl : List ℚ)
        (nobs : Nat) (season ssh seh sm ma md : ℚ) (io : List String)
        (m5w fw sw stw tw utw : ℚ) (fps : Footprints) (u1 : Bool) (sr : ℚ)
        (gs : String → Option Nat) (gsw ms rw : ℚ) (ss : List Survey),
      generate_blobs nside nexp exptime filter1s filter2s pair_time crl nobs
          season ssh seh sm ma md io m5w fw sw stw tw utw fps u1 sr gs gsw ms
          rw = some ss →
        ss.length = (filter1s.zip filter2s).length ∧
        ∀ s ∈ ss, s.weights.length = s.basis_functions.length ∧
          ∃ L : List (BF × ℚ), s.basis_functions = L.map Prod.fst ∧
            s.weights = L.map Prod.snd) ∧
    (∀ (nside nexp : Nat) (exptime pair_time : ℚ) (crl : List ℚ)
        (nobs : Nat) (season ssh seh sm ma md : ℚ) (io : List String)
        (m5w fw sw stw tw utw : ℚ) (fps : Footprints) (u1 : Bool) (sr : ℚ)
        (gs : String → Option Nat) (gsw ms rw : ℚ),
      (generate_blobs nside nexp exptime default_filter1s default_filter2s
        pair_time crl nobs season ssh seh sm ma md io m5w fw sw stw tw utw
        fps u1 sr gs gsw ms rw).map List.length = some 7) := by
  refine ⟨?_, ?_, ?_⟩
  · intro nside nexp exptime filters crl sm ma md io m5w fw sw stw rw fps
    refine ⟨List.length_map _ _, ?_⟩
    intro s hs
    obtain ⟨f, _, rfl⟩ := List.mem_map.1 hs
    exact ⟨rfl, rfl, rfl, greedy_bfs nside f sm ma md m5w fw sw stw rw fps,
      rfl, rfl⟩
  · intro nside nexp exptime filter1s filter2s pair_time crl nobs season ssh
      seh sm ma md io m5w fw sw stw tw utw fps u1 sr gs gsw ms rw ss h
    unfold generate_blobs at h
    refine ⟨build_loop_length _ _ _ h, ?_⟩
    intro s hs
    obtain ⟨pr, _, hps⟩ := build_loop_mem _ _ _ h s hs
    obtain ⟨bfs, _, hbasis, hweights, _⟩ := blob_pair_survey_shape nside nexp
      exptime pair_time crl nobs season ssh seh sm ma md io m5w fw sw stw tw
      utw fps u1 sr gs gsw ms rw pr.1 pr.2 s hps
    refine ⟨?_, bfs, hbasis, hweights⟩
    rw [hbasis, hweights, List.length_map, List.length_map]
  · intro nside nexp exptime pair_time crl nobs season ssh seh sm ma md io
      m5w fw sw stw tw utw fps u1 sr gs gsw ms rw
    rfl

/-- Witness for C3: with `filter1s = ['g']`, `filter2s = ['r']`,
`generate_blobs` succeeds and returns exactly one survey per zipped pair. -/
theorem survey_counts_witness :
    ((generate_blobs 32 2 30 ["g"] [some "r"] 33 [-80, 80] 3 300 (-4) 2 60 76
        30 ["DD", "twilight_neo"] 6 (3 / 2) 3 3 12 24 wFootprints true 45
        default_good_seeing 3 1 (-20)).getD []).length =
      ((["g"] : List String).zip ([some "r"] : List (Option String))).length :=
  (survey_counts.2.1 32 2 30 ["g"] [some "r"] 33 [-80, 80] 3 300 (-4) 2 60 76
    30 ["DD", "twilight_neo"] 6 (3 / 2) 3 3 12 24 wFootprints true 45
    default_good_seeing 3 1 (-20) _ rfl).1

/-- Witness for C8 on a two-row array: the `DD:EDFS_a` row goes to the
Euclid index set, the other row to the complement, and no row to both. -/
theorem ddf_surveys_partition_witness :
    0 ∈ euclid_obs_idx [⟨"DD:EDFS_a", 0⟩, ⟨"DD:XMM_LSS", 1⟩] ∧
    1 ∈ all_other_idx [⟨"DD:EDFS_a", 0⟩, ⟨"DD:XMM_LSS", 1⟩] ∧
    ¬(0 ∈ all_other_idx [⟨"DD:EDFS_a", 0⟩, ⟨"DD:XMM_LSS", 1⟩]) := by
  obtain ⟨s1, s2, -, -, -, -, -, -, -, hidx, hdisj, -⟩ :=
    ddf_surveys_partition [] [] [⟨"DD:EDFS_a", 0⟩, ⟨"DD:XMM_LSS", 1⟩]
  have h0 : (0 : Nat) ∈ euclid_obs_idx
      [⟨"DD:EDFS_a", 0⟩, ⟨"DD:XMM_LSS", 1⟩] :=
    (hidx 0 (by decide)).1.mpr (Or.inl rfl)
  exact ⟨h0, (hidx 1 (by decide)).2.mpr (by decide),
    fun hm => hdisj 0 ⟨h0, hm⟩⟩

/-- Witness for C9 at `neo_night_pattern = 4` (the script's default) and
night 0: the twilight-blob pattern is disabled exactly when the NEO pattern
is enabled. -/
theorem neo_twi_night_patterns_witness :
    pattern_dict 4 = some [true, false, false, false] ∧
    night_modulo_enabled (reverse_pattern [true, false, false, false]) 0 =
      !(night_modulo_enabled [true, false, false, false] 0) :=
  ⟨rfl,
    (neo_twi_night_patterns 4 [true, false, false, false] rfl
      32 2 30 ["r"] [some "i"] 15 [-80, 80] 3 300 (-4) 2 60 76 30 ["DD"] 6
      (3 / 2) 3 3 12 wFootprints none 0 15 (-1)
      1 15 5 2 [-80, 80] none (1 / 10) 3 3 ["r"] 3 (-74 / 5) 0).2.2.2⟩

end SchedRuns
